import Mathlib

set_option linter.unusedVariables false

/-!
Verification development for the multi-cluster fan-out execution engine of
the `a2a` repository.  The Python sources under `src/shared/functions/` are
shallowly embedded: every external process invocation goes through a `World`
oracle that fixes the outcome of launching a given argument vector, and each
embedded function additionally returns the trace of commands it launched, in
order.  Python dictionaries are modelled as insertion-ordered association
lists with Python's overwrite-on-repeated-key semantics, and the handful of
string operations the sources use (`str.lower`, `str.strip`, `str.split`,
`str.startswith`, substring containment) are re-implemented on character
lists so that all definitions compute by kernel reduction.
-/

namespace A2A

/-! ## Python string primitives (structurally recursive, kernel-computable) -/

/-- Whitespace characters recognised by `str.strip` / `str.split` (ASCII). -/
def isSpaceChar (c : Char) : Bool :=
  c == ' ' || c == '\t' || c == '\n' || c == '\r' || c == '\x0b' || c == '\x0c'

/-- Is the first list a prefix of the second? -/
def isPrefixOfCL : List Char → List Char → Bool
  | [], _ => true
  | _ :: _, [] => false
  | a :: as, b :: bs => a == b && isPrefixOfCL as bs

/-- Split on a non-empty separator, scanning left to right (fuelled so that
the recursion is structural; the fuel is always sufficient at `length + 1`). -/
def splitOnCL (sep : List Char) : Nat → List Char → List Char → List (List Char)
  | 0, s, acc => [acc.reverse ++ s]
  | _ + 1, [], acc => [acc.reverse]
  | fuel + 1, c :: rest, acc =>
    if isPrefixOfCL sep (c :: rest) then
      acc.reverse :: splitOnCL sep fuel ((c :: rest).drop sep.length) []
    else
      splitOnCL sep fuel rest (c :: acc)

/-- Python `s.split(sep)` for a non-empty separator. -/
def pySplitOn (s sep : String) : List String :=
  if sep.data.isEmpty then [s]
  else (splitOnCL sep.data (s.data.length + 1) s.data []).map fun l => ⟨l⟩

/-- Python `s.lower()` (ASCII). -/
def pyLower (s : String) : String := ⟨s.data.map Char.toLower⟩

/-- Python `s.strip()` (ASCII whitespace). -/
def pyStrip (s : String) : String :=
  ⟨((s.data.dropWhile isSpaceChar).reverse.dropWhile isSpaceChar).reverse⟩

/-- Python `s.startswith(pat)`. -/
def pyStartsWith (s pat : String) : Bool := isPrefixOfCL pat.data s.data

/-- Python `pat in s` for a non-empty pattern. -/
def pyContains (s pat : String) : Bool := (pySplitOn s pat).length ≥ 2

/-- Python `s.split()`: split on whitespace runs, dropping empty pieces. -/
def pySplitWs (s : String) : List String :=
  ((s.data.splitOnP isSpaceChar).map fun l => (⟨l⟩ : String)).filter (fun t => t ≠ "")

/-- Python `sep.join(parts)`. -/
def pyJoin (sep : String) : List String → String
  | [] => ""
  | [x] => x
  | x :: y :: rest => x ++ sep ++ pyJoin sep (y :: rest)

/-- Python `s.split(sep, 1)`: split at the first occurrence only. -/
def pySplitOnce (s sep : String) : String × String :=
  match pySplitOn s sep with
  | [] => (s, "")
  | [x] => (x, "")
  | x :: y :: rest => (x, pyJoin sep (y :: rest))

/-! ## Python dictionaries as insertion-ordered association lists -/

/-- Python `d[k] = v`: overwrite in place if the key is present (keeping its
position), otherwise append at the end. -/
def pyDictInsert (k : String) (v : α) : List (String × α) → List (String × α)
  | [] => [(k, v)]
  | p :: rest => if p.1 = k then (p.1, v) :: rest else p :: pyDictInsert k v rest

/-- The dictionary produced by inserting the pairs left to right into `{}`,
exactly as a Python `for` loop assigning `d[k] = v` does. -/
def pyDictOfList (ps : List (String × α)) : List (String × α) :=
  ps.foldl (fun acc p => pyDictInsert p.1 p.2 acc) []

/-- Python `d.get(k)`. -/
def pyDictGet (l : List (String × α)) (k : String) : Option α :=
  (l.find? (fun p => p.1 == k)).map (·.2)

/-! ## External process model -/

/-- What `_run_command` returns: the `{returncode, stdout, stderr}` record. -/
structure CmdResult where
  returncode : Int
  stdout : String
  stderr : String
deriving DecidableEq, Repr

/-- A JSON value as produced by Python's `json.loads` (numbers restricted to
integers, which is all the embedded code paths inspect). -/
inductive Json where
  | null : Json
  | bool (b : Bool) : Json
  | num (n : Int) : Json
  | str (s : String) : Json
  | arr (xs : List Json) : Json
  | obj (fields : List (String × Json)) : Json

/-- The environment: the outcome of launching each argument vector
(`.error e` models `asyncio.create_subprocess_exec` raising with message
`e`), the behaviour of the external `json.loads` (`none` models a parse
error being raised), and the name the OS picks for a temporary file. -/
structure World where
  launch : List String → Except String CmdResult
  parseJson : String → Option Json
  tempFile : String

/-- Embedding of `_run_command` (identical in `deploy_to.py`,
`multicluster_create.py`, `multicluster_logs.py`, `namespace_utils.py`,
`gvrc_discovery.py`, `kubestellar_management.py` and `helm_deploy.py`):
return the process record, and convert any launch exception into
`{returncode: 1, stdout: "", stderr: str(e)}`. -/
def runCommand (w : World) (cmd : List String) : CmdResult :=
  match w.launch cmd with
  | .ok r => r
  | .error e => { returncode := 1, stdout := "", stderr := e }

/-- The list of argument vectors an embedded function launched, in order. -/
abbrev Trace := List (List String)

/-- A discovered cluster record `{name, context, status}`. -/
structure Cluster where
  name : String
  context : String
  status : String
deriving DecidableEq, Repr

/-- Outcome of one (cluster, namespace) execution, the unit of the fan-out
(shape shared by `deploy_to.py` and `multicluster_create.py`).  `imageUsed`
is `none` when the `image_used` key is absent and `some v` when present
with value `v` (`some none` models `image_used = None`). -/
structure UnitOutcome where
  status : String
  output : String
  error : Option String := none
  imageUsed : Option (Option String) := none
deriving DecidableEq, Repr

/-- Per-cluster result shape shared by `_deploy_to_cluster` and
`_create_on_cluster`. -/
structure ClusterOutcome where
  status : String
  cluster : String
  namespacesTotal : Nat
  namespacesSucceeded : Nat
  namespacesFailed : Nat
  namespaceResults : List (String × UnitOutcome)
deriving DecidableEq, Repr

/-- The `kubectl config get-contexts -o name` command used by every
discovery path, with the optional `--kubeconfig` flag. -/
def getContextsCmd (kubeconfig : String) : List String :=
  ["kubectl", "config", "get-contexts", "-o", "name"] ++
    (if kubeconfig ≠ "" then ["--kubeconfig", kubeconfig] else [])

/-- The `kubectl cluster-info --context <ctx>` reachability probe used by
every discovery path. -/
def clusterInfoCmd (context kubeconfig : String) : List String :=
  ["kubectl", "cluster-info", "--context", context] ++
    (if kubeconfig ≠ "" then ["--kubeconfig", kubeconfig] else [])

end A2A

namespace A2A.DeployTo

/-! ## Embedding of `src/shared/functions/deploy_to.py` (`DeployToFunction`) -/

/-- `DeployToFunction._is_wds_cluster`. -/
def isWdsCluster (clusterName : String) : Bool :=
  let lowerName := pyLower clusterName
  pyStartsWith lowerName "wds" || pyContains lowerName "-wds-" ||
    pyContains lowerName "_wds_"

/-- The per-context body of the discovery loop in
`DeployToFunction._discover_clusters`: probe reachability and keep the
context with status `Ready` or `Unreachable`. -/
def probeContexts (w : World) (kubeconfig : String) :
    List String → List Cluster × Trace
  | [] => ([], [])
  | context :: rest =>
    if pyStrip context = "" then probeContexts w kubeconfig rest
    else if isWdsCluster context then probeContexts w kubeconfig rest
    else
      let testCmd := clusterInfoCmd context kubeconfig
      let testResult := runCommand w testCmd
      let status := if testResult.returncode = 0 then "Ready" else "Unreachable"
      let restOut := probeContexts w kubeconfig rest
      (⟨context, context, status⟩ :: restOut.1, testCmd :: restOut.2)

/-- `DeployToFunction._discover_clusters`. -/
def discoverClusters (w : World) (kubeconfig : String) : List Cluster × Trace :=
  let cmd := getContextsCmd kubeconfig
  let result := runCommand w cmd
  if result.returncode ≠ 0 then ([], [cmd])
  else
    let contexts := pySplitOn (pyStrip result.stdout) "\n"
    let probed := probeContexts w kubeconfig contexts
    (probed.1, cmd :: probed.2)

/-- `DeployToFunction._filter_clusters` (this call site returns `[]` when
neither names nor labels are given). -/
def filterClusters (allClusters : List Cluster) (targetNames : List String)
    (clusterLabels : List String) : List Cluster :=
  if targetNames ≠ [] then
    let nameSet := targetNames.foldl
      (fun acc nameList => acc ++ (pySplitOn nameList ",").map pyStrip) []
    allClusters.filter (fun c => nameSet.contains c.name || nameSet.contains c.context)
  else if clusterLabels ≠ [] then allClusters
  else []

/-- The `kubectl get namespaces` query of
`DeployToFunction._resolve_target_namespaces`. -/
def getNamespacesCmd (context namespaceSelector kubeconfig : String) : List String :=
  ["kubectl", "get", "namespaces", "--context", context] ++
    (if kubeconfig ≠ "" then ["--kubeconfig", kubeconfig] else []) ++
    (if namespaceSelector ≠ "" then ["-l", namespaceSelector] else []) ++
    ["-o", "jsonpath=\x7b.items[*].metadata.name\x7d"]

/-- `DeployToFunction._resolve_target_namespaces`. -/
def resolveTargetNamespaces (w : World) (cluster : Cluster)
    (allNamespaces : Bool) (namespaceSelector : String)
    (targetNamespaces : List String) (nsParam kubeconfig : String) :
    List String × Trace :=
  if targetNamespaces ≠ [] then (targetNamespaces, [])
  else if allNamespaces || namespaceSelector ≠ "" then
    let cmd := getNamespacesCmd cluster.context namespaceSelector kubeconfig
    let result := runCommand w cmd
    if result.returncode = 0 then
      ((pySplitWs (pyStrip result.stdout)).filter (fun ns => ns ≠ ""), [cmd])
    else if nsParam ≠ "" then ([nsParam], [cmd])
    else (["default"], [cmd])
  else if nsParam ≠ "" then ([nsParam], [])
  else (["default"], [])

/-- Parsing of `cluster_images` (`cluster=image` entries) in
`DeployToFunction._deploy_to_clusters`. -/
def parseClusterImages (clusterImages : List String) : List (String × String) :=
  clusterImages.foldl
    (fun acc clusterImage =>
      if pyContains clusterImage "=" then
        let parts := pySplitOnce clusterImage "="
        pyDictInsert (pyStrip parts.1) (pyStrip parts.2) acc
      else acc)
    []

/-- The `--image` flags and the `image_used` value for a deployment, per the
`resource_type == "deployment"` branch of `DeployToFunction._deploy_to_cluster`. -/
def deployImageChoice (cluster : Cluster) (image : String)
    (clusterImageMap : List (String × String)) : List String × Option String :=
  let clusterSpecificImage := (pyDictGet clusterImageMap cluster.name).getD ""
  if clusterSpecificImage ≠ "" then
    (["--image", clusterSpecificImage], some clusterSpecificImage)
  else if image ≠ "" then (["--image", image], some image)
  else ([], none)

/-- The kubectl command `DeployToFunction._deploy_to_cluster` builds for one
(cluster, namespace) unit. -/
def deployUnitCmd (cluster : Cluster) (filename resourceType resourceName image : String)
    (clusterImageMap : List (String × String)) (kubeconfig nsName : String) :
    List String :=
  (if filename ≠ "" then ["kubectl", "apply", "-f", filename]
   else
     ["kubectl", "create", resourceType, resourceName] ++
       (if resourceType = "deployment" then
         (deployImageChoice cluster image clusterImageMap).1
        else [])) ++
    ["--context", cluster.context] ++
    (if kubeconfig ≠ "" then ["--kubeconfig", kubeconfig] else []) ++
    ["--namespace", nsName]

/-- One iteration of the namespace loop in
`DeployToFunction._deploy_to_cluster`: run the unit command and classify a
failure into a friendly message, preserving the raw output. -/
def deployUnitOutcome (w : World) (cluster : Cluster)
    (filename resourceType resourceName image : String)
    (clusterImageMap : List (String × String)) (kubeconfig nsName : String) :
    UnitOutcome :=
  let result := runCommand w
    (deployUnitCmd cluster filename resourceType resourceName image
      clusterImageMap kubeconfig nsName)
  if result.returncode = 0 then
    { status := "success", output := result.stdout,
      imageUsed :=
        if resourceType = "deployment" ∧ filename = "" then
          some (deployImageChoice cluster image clusterImageMap).2
        else none }
  else
    let errorOutput := if result.stderr ≠ "" then result.stderr else result.stdout
    let errorMsg :=
      if pyContains errorOutput "already exists" then
        "Resource already exists in this namespace"
      else if pyContains errorOutput "not found" then
        "Namespace or resource type not found"
      else "Deployment failed: " ++ errorOutput
    { status := "error", error := some errorMsg, output := errorOutput }

/-- `DeployToFunction._deploy_to_cluster`: run the unit on every target
namespace, collect outcomes in a dict keyed by namespace, and summarise. -/
def deployToCluster (w : World) (cluster : Cluster)
    (filename resourceType resourceName image : String)
    (clusterImageMap : List (String × String)) (targetNamespaces : List String)
    (kubeconfig apiVersion : String) : ClusterOutcome × Trace :=
  let namespaceResults := pyDictOfList (targetNamespaces.map fun nsName =>
    (nsName, deployUnitOutcome w cluster filename resourceType resourceName image
      clusterImageMap kubeconfig nsName))
  let successCount := namespaceResults.countP (fun r => r.2.status == "success")
  let totalCount := namespaceResults.length
  ({ status := if 0 < successCount then "success" else "error",
     cluster := cluster.name,
     namespacesTotal := totalCount,
     namespacesSucceeded := successCount,
     namespacesFailed := totalCount - successCount,
     namespaceResults := namespaceResults },
   targetNamespaces.map fun nsName =>
     deployUnitCmd cluster filename resourceType resourceName image
       clusterImageMap kubeconfig nsName)

/-- `DeployToFunction._deploy_to_clusters`: the fan-out dispatcher, keyed by
cluster name. -/
def deployToClusters (w : World) (clusters : List Cluster)
    (filename resourceType resourceName image : String)
    (clusterImages : List String) (targetNamespaces : List String)
    (kubeconfig apiVersion : String) :
    List (String × ClusterOutcome) × Trace :=
  let clusterImageMap := parseClusterImages clusterImages
  (pyDictOfList (clusters.map fun c =>
      (c.name, (deployToCluster w c filename resourceType resourceName image
        clusterImageMap targetNamespaces kubeconfig apiVersion).1)),
   (clusters.map fun c =>
      (deployToCluster w c filename resourceType resourceName image
        clusterImageMap targetNamespaces kubeconfig apiVersion).2).flatten)

/-- The `deployment_plan` dict built by `DeployToFunction.execute`. -/
structure DeploymentPlan where
  targetClusters : List String
  targetNamespaces : List String
  filename : String
  resourceType : String
  resourceName : String
  image : String
  apiVersion : String
  resourceFilter : String
deriving DecidableEq, Repr

/-- The shapes of dictionaries `DeployToFunction.execute` (and its
`_list_available_clusters` helper) can return. -/
inductive DeployResponse where
  | err (error : String) : DeployResponse
  | errAvailable (error : String) (availableClusters : List (String × String)) :
      DeployResponse
  | listNone : DeployResponse
  | clusterList (clustersTotal : Nat) (clusters : List Cluster)
      (usageExamples : List String) : DeployResponse
  | dryRunPlan (plan : DeploymentPlan) (clustersSelected : Nat)
      (selectedClusters : List Cluster) : DeployResponse
  | deployed (status : String) (clustersSelected clustersSucceeded clustersFailed : Nat)
      (plan : DeploymentPlan) (results : List (String × ClusterOutcome)) :
      DeployResponse
deriving DecidableEq, Repr

/-- Whether the response is the post-deployment envelope. -/
def DeployResponse.isDeployed : DeployResponse → Bool
  | .deployed _ _ _ _ _ _ => true
  | _ => false

/-- The `status` field of the returned dictionary. -/
def DeployResponse.statusOf : DeployResponse → String
  | .err _ => "error"
  | .errAvailable _ _ => "error"
  | .listNone => "success"
  | .clusterList _ _ _ => "success"
  | .dryRunPlan _ _ _ => "success"
  | .deployed status _ _ _ _ _ => status

/-- The `clusters_selected` field (0 for shapes without it). -/
def DeployResponse.selectedOf : DeployResponse → Nat
  | .deployed _ sel _ _ _ _ => sel
  | .dryRunPlan _ sel _ => sel
  | _ => 0

/-- The `clusters_succeeded` field (0 for shapes without it). -/
def DeployResponse.succeededOf : DeployResponse → Nat
  | .deployed _ _ suc _ _ _ => suc
  | _ => 0

/-- The `clusters_failed` field (0 for shapes without it). -/
def DeployResponse.failedOf : DeployResponse → Nat
  | .deployed _ _ _ failed _ _ => failed
  | _ => 0

/-- The `results` field (empty for shapes without it). -/
def DeployResponse.resultsOf : DeployResponse → List (String × ClusterOutcome)
  | .deployed _ _ _ _ _ results => results
  | _ => []

/-- The `target_namespaces` of the deployment plan (empty otherwise). -/
def DeployResponse.planNamespacesOf : DeployResponse → List String
  | .deployed _ _ _ _ plan _ => plan.targetNamespaces
  | .dryRunPlan plan _ _ => plan.targetNamespaces
  | _ => []

/-- `DeployToFunction._list_available_clusters`. -/
def listAvailableClusters (w : World) (kubeconfig remoteContext : String) :
    DeployResponse × Trace :=
  let discovered := discoverClusters w kubeconfig
  if discovered.1 = [] then (.listNone, discovered.2)
  else
    let firstCluster := (discovered.1.headD ⟨"", "", ""⟩).name
    let exampleCommands :=
      if discovered.1 ≠ [] then
        ["Deploy to specific cluster: target_clusters=[\"" ++ firstCluster ++ "\"]",
         "Deploy with dry-run: target_clusters=[\"" ++ firstCluster ++ "\"], dry_run=True",
         "Deploy with binding policy (recommended): Use create_binding_policy function"]
      else []
    (.clusterList discovered.1.length discovered.1 exampleCommands, discovered.2)

/-- The keyword arguments of `DeployToFunction.execute`, with the source's
defaults (`None` list parameters are modelled as `[]`; the Python
`namespace` parameter is called `nsParam` because `namespace` is a Lean
keyword). -/
structure DeployParams where
  targetClusters : List String := []
  clusterLabels : List String := []
  filename : String := ""
  resourceType : String := ""
  resourceName : String := ""
  image : String := ""
  clusterImages : List String := []
  nsParam : String := ""
  allNamespaces : Bool := false
  namespaceSelector : String := ""
  targetNamespaces : List String := []
  resourceFilter : String := ""
  apiVersion : String := ""
  kubeconfig : String := ""
  remoteContext : String := ""
  dryRun : Bool := false
  listClusters : Bool := false
deriving DecidableEq, Repr

/-- `DeployToFunction.execute`. -/
def execute (w : World) (p : DeployParams) : DeployResponse × Trace :=
  if p.listClusters then listAvailableClusters w p.kubeconfig p.remoteContext
  else if p.targetClusters = [] ∧ p.clusterLabels = [] then
    (.err "Must specify either target_clusters or cluster_labels", [])
  else if p.filename = "" ∧ ¬(p.resourceType ≠ "" ∧ p.resourceName ≠ "") then
    (.err "Must specify either filename or both resource_type and resource_name", [])
  else
    let discovered := discoverClusters w p.kubeconfig
    if discovered.1 = [] then (.err "No clusters discovered", discovered.2)
    else
      let selectedClusters := filterClusters discovered.1 p.targetClusters p.clusterLabels
      if selectedClusters = [] then
        (.errAvailable "No clusters match the selection criteria"
          (discovered.1.map fun c => (c.name, c.context)), discovered.2)
      else
        let resolved := resolveTargetNamespaces w (selectedClusters.headD ⟨"", "", ""⟩)
          p.allNamespaces p.namespaceSelector p.targetNamespaces p.nsParam p.kubeconfig
        let deploymentPlan : DeploymentPlan :=
          { targetClusters := selectedClusters.map (·.name),
            targetNamespaces := resolved.1,
            filename := p.filename, resourceType := p.resourceType,
            resourceName := p.resourceName, image := p.image,
            apiVersion := p.apiVersion, resourceFilter := p.resourceFilter }
        if p.dryRun then
          (.dryRunPlan deploymentPlan selectedClusters.length selectedClusters,
           discovered.2 ++ resolved.2)
        else
          let deployed := deployToClusters w selectedClusters p.filename
            p.resourceType p.resourceName p.image p.clusterImages resolved.1
            p.kubeconfig p.apiVersion
          let successCount := deployed.1.countP (fun r => r.2.status == "success")
          (.deployed (if 0 < successCount then "success" else "error")
            selectedClusters.length successCount
            (selectedClusters.length - successCount) deploymentPlan deployed.1,
           discovered.2 ++ resolved.2 ++ deployed.2)

end A2A.DeployTo

namespace A2A.MultiCreate

/-! ## Embedding of `src/shared/functions/multicluster_create.py`
(`MultiClusterCreateFunction`), the parts the claims exercise -/

/-- `MultiClusterCreateFunction._is_wds_cluster`. -/
def isWdsCluster (clusterName : String) : Bool :=
  let lowerName := pyLower clusterName
  pyStartsWith lowerName "wds" || pyContains lowerName "-wds-" ||
    pyContains lowerName "_wds_"

/-- The per-context body of the discovery loop in
`MultiClusterCreateFunction._discover_clusters`: a context is appended only
when its reachability probe succeeds. -/
def probeContexts (w : World) (kubeconfig : String) :
    List String → List Cluster × Trace
  | [] => ([], [])
  | context :: rest =>
    if pyStrip context = "" then probeContexts w kubeconfig rest
    else if isWdsCluster context then probeContexts w kubeconfig rest
    else
      let testCmd := clusterInfoCmd context kubeconfig
      let testResult := runCommand w testCmd
      let restOut := probeContexts w kubeconfig rest
      if testResult.returncode = 0 then
        (⟨context, context, "Ready"⟩ :: restOut.1, testCmd :: restOut.2)
      else (restOut.1, testCmd :: restOut.2)

/-- `MultiClusterCreateFunction._discover_clusters`. -/
def discoverClusters (w : World) (kubeconfig : String) : List Cluster × Trace :=
  let cmd := getContextsCmd kubeconfig
  let result := runCommand w cmd
  if result.returncode ≠ 0 then ([], [cmd])
  else
    let contexts := pySplitOn (pyStrip result.stdout) "\n"
    let probed := probeContexts w kubeconfig contexts
    (probed.1, cmd :: probed.2)

/-- The kubectl command `MultiClusterCreateFunction._create_on_cluster`
builds for one (cluster, namespace) unit. -/
def createUnitCmd (cluster : Cluster)
    (resourceType resourceName filename image : String) (replicas port : Int)
    (kubeconfig nsName dryRun : String) (labels : List (String × String)) :
    List String :=
  ["kubectl"] ++
    (if filename ≠ "" then ["apply", "-f", filename]
     else
       ["create", resourceType, resourceName] ++
         (if resourceType = "deployment" ∧ image ≠ "" then
           ["--image", image] ++
             (if replicas > 1 then ["--replicas", toString replicas] else []) ++
             (if port > 0 then ["--port", toString port] else [])
          else [])) ++
    ["--context", cluster.context] ++
    (if kubeconfig ≠ "" then ["--kubeconfig", kubeconfig] else []) ++
    ["--namespace", nsName] ++
    (if dryRun ≠ "none" then ["--dry-run", dryRun] else []) ++
    (if labels ≠ [] then
      (labels.map fun kv => ["--label", kv.1 ++ "=" ++ kv.2]).flatten
     else [])

/-- One iteration of the namespace loop in
`MultiClusterCreateFunction._create_on_cluster`: run the unit command and
classify a failure into a friendly message, preserving the raw output. -/
def createUnitOutcome (w : World) (cluster : Cluster)
    (resourceType resourceName filename image : String) (replicas port : Int)
    (kubeconfig nsName dryRun : String) (labels : List (String × String)) :
    UnitOutcome :=
  let result := runCommand w
    (createUnitCmd cluster resourceType resourceName filename image replicas
      port kubeconfig nsName dryRun labels)
  if result.returncode = 0 then
    { status := "success", output := result.stdout }
  else
    let errorOutput := if result.stderr ≠ "" then result.stderr else result.stdout
    let errorMsg :=
      if pyContains errorOutput "already exists" then
        "Resource already exists in this namespace"
      else if pyContains errorOutput "not found" then
        "Namespace or resource type not found"
      else "Creation failed: " ++ errorOutput
    { status := "error", error := some errorMsg, output := errorOutput }

/-- `MultiClusterCreateFunction._create_on_cluster`. -/
def createOnCluster (w : World) (cluster : Cluster)
    (resourceType resourceName filename image : String) (replicas port : Int)
    (targetNamespaces : List String) (kubeconfig dryRun : String)
    (labels : List (String × String)) (apiVersion : String) :
    ClusterOutcome × Trace :=
  let namespaceResults := pyDictOfList (targetNamespaces.map fun nsName =>
    (nsName, createUnitOutcome w cluster resourceType resourceName filename
      image replicas port kubeconfig nsName dryRun labels))
  let successCount := namespaceResults.countP (fun r => r.2.status == "success")
  let totalCount := namespaceResults.length
  ({ status := if 0 < successCount then "success" else "error",
     cluster := cluster.name,
     namespacesTotal := totalCount,
     namespacesSucceeded := successCount,
     namespacesFailed := totalCount - successCount,
     namespaceResults := namespaceResults },
   targetNamespaces.map fun nsName =>
     createUnitCmd cluster resourceType resourceName filename image replicas
       port kubeconfig nsName dryRun labels)

end A2A.MultiCreate

namespace A2A.NamespaceUtils

/-! ## Embedding of `src/shared/functions/namespace_utils.py`
(`NamespaceUtilsFunction`), the discovery path the claims exercise -/

/-- `NamespaceUtilsFunction._is_wds_cluster`. -/
def isWdsCluster (clusterName : String) : Bool :=
  let lowerName := pyLower clusterName
  pyStartsWith lowerName "wds" || pyContains lowerName "-wds-" ||
    pyContains lowerName "_wds_"

/-- The per-context body of the discovery loop in
`NamespaceUtilsFunction._discover_clusters`: a context is appended only
when its reachability probe succeeds. -/
def probeContexts (w : World) (kubeconfig : String) :
    List String → List Cluster × Trace
  | [] => ([], [])
  | context :: rest =>
    if pyStrip context = "" then probeContexts w kubeconfig rest
    else if isWdsCluster context then probeContexts w kubeconfig rest
    else
      let testCmd := clusterInfoCmd context kubeconfig
      let testResult := runCommand w testCmd
      let restOut := probeContexts w kubeconfig rest
      if testResult.returncode = 0 then
        (⟨context, context, "Ready"⟩ :: restOut.1, testCmd :: restOut.2)
      else (restOut.1, testCmd :: restOut.2)

/-- `NamespaceUtilsFunction._discover_clusters`. -/
def discoverClusters (w : World) (kubeconfig : String) : List Cluster × Trace :=
  let cmd := getContextsCmd kubeconfig
  let result := runCommand w cmd
  if result.returncode ≠ 0 then ([], [cmd])
  else
    let contexts := pySplitOn (pyStrip result.stdout) "\n"
    let probed := probeContexts w kubeconfig contexts
    (probed.1, cmd :: probed.2)

end A2A.NamespaceUtils

namespace A2A.Gvrc

/-! ## Embedding of `src/shared/functions/gvrc_discovery.py`
(`GVRCDiscoveryFunction`), the discovery path the claims exercise -/

/-- `GVRCDiscoveryFunction._is_wds_cluster`. -/
def isWdsCluster (clusterName : String) : Bool :=
  let lowerName := pyLower clusterName
  pyStartsWith lowerName "wds" || pyContains lowerName "-wds-" ||
    pyContains lowerName "_wds_"

/-- The per-context body of the discovery loop in
`GVRCDiscoveryFunction._discover_clusters`: a context is appended only when
its reachability probe succeeds. -/
def probeContexts (w : World) (kubeconfig : String) :
    List String → List Cluster × Trace
  | [] => ([], [])
  | context :: rest =>
    if pyStrip context = "" then probeContexts w kubeconfig rest
    else if isWdsCluster context then probeContexts w kubeconfig rest
    else
      let testCmd := clusterInfoCmd context kubeconfig
      let testResult := runCommand w testCmd
      let restOut := probeContexts w kubeconfig rest
      if testResult.returncode = 0 then
        (⟨context, context, "Ready"⟩ :: restOut.1, testCmd :: restOut.2)
      else (restOut.1, testCmd :: restOut.2)

/-- `GVRCDiscoveryFunction._discover_clusters`. -/
def discoverClusters (w : World) (kubeconfig : String) : List Cluster × Trace :=
  let cmd := getContextsCmd kubeconfig
  let result := runCommand w cmd
  if result.returncode ≠ 0 then ([], [cmd])
  else
    let contexts := pySplitOn (pyStrip result.stdout) "\n"
    let probed := probeContexts w kubeconfig contexts
    (probed.1, cmd :: probed.2)

end A2A.Gvrc

namespace A2A.Logs

/-! ## Embedding of `src/shared/functions/multicluster_logs.py`
(`MultiClusterLogsFunction`), the concurrency discipline of
`_follow_logs_from_clusters` -/

/-- The default of the `max_log_requests` keyword of
`MultiClusterLogsFunction.execute`. -/
def defaultMaxLogRequests : Nat := 10

/-- The lifecycle of one per-cluster `follow_cluster_logs` task:
it waits on the semaphore, then streams (the `kubectl logs -f` subprocess
runs exactly while the task holds its permit, inside `async with
semaphore`), then finishes (releasing the permit). -/
inductive StreamPhase where
  | waiting : StreamPhase
  | streaming : StreamPhase
  | finished : StreamPhase
deriving DecidableEq, Repr

/-- Is this task currently holding a permit and streaming? -/
def StreamPhase.isStreaming : StreamPhase → Bool
  | .streaming => true
  | _ => false

/-- Number of simultaneously streaming subprocesses in a scheduler state. -/
def streamingCount (s : List StreamPhase) : Nat :=
  s.countP StreamPhase.isStreaming

/-- Interleaving semantics of `_follow_logs_from_clusters`: the scheduler
may start a waiting task only when `asyncio.Semaphore(max_requests)` has a
free permit — that is, when fewer than `maxRequests` tasks are streaming —
and may finish a streaming task at any time (releasing its permit). -/
inductive FollowStep (maxRequests : Nat) : List StreamPhase → List StreamPhase → Prop where
  | start (pre post : List StreamPhase)
      (hfree : streamingCount (pre ++ .waiting :: post) < maxRequests) :
      FollowStep maxRequests (pre ++ .waiting :: post) (pre ++ .streaming :: post)
  | finish (pre post : List StreamPhase) :
      FollowStep maxRequests (pre ++ .streaming :: post) (pre ++ .finished :: post)

/-- The states reachable by following logs from `n` clusters, starting with
every per-cluster task waiting (the `tasks` list built from `clusters`). -/
def FollowReachable (maxRequests n : Nat) (s : List StreamPhase) : Prop :=
  Relation.ReflTransGen (FollowStep maxRequests) (List.replicate n .waiting) s

end A2A.Logs

namespace A2A.KsMgmt

/-! ## Embedding of `src/shared/functions/kubestellar_management.py`
(`KubeStellarManagementFunction`), the topology-discovery path -/

mutual

/-- Python `repr` of a decoded JSON value, as `str(labels)` produces it. -/
def pyRepr : Json → String
  | .null => "None"
  | .bool true => "True"
  | .bool false => "False"
  | .num n => toString n
  | .str s => "\x27" ++ s ++ "\x27"
  | .arr xs => "[" ++ pyReprElems xs ++ "]"
  | .obj fs => "\x7b" ++ pyReprFields fs ++ "\x7d"

def pyReprElems : List Json → String
  | [] => ""
  | [x] => pyRepr x
  | x :: y :: rest => pyRepr x ++ ", " ++ pyReprElems (y :: rest)

def pyReprFields : List (String × Json) → String
  | [] => ""
  | [p] => "\x27" ++ p.1 ++ "\x27: " ++ pyRepr p.2
  | p :: q :: rest =>
    "\x27" ++ p.1 ++ "\x27: " ++ pyRepr p.2 ++ ", " ++ pyReprFields (q :: rest)

end

/-- Lookup in a decoded JSON object (Python `d.get(k)` / `d[k]`). -/
def jsonGet (fields : List (String × Json)) (k : String) : Option Json :=
  (fields.find? (fun p => p.1 == k)).map (·.2)

/-- The `kubectl api-resources --context <ctx> --api-group=<g>` command. -/
def apiResourcesCmd (context group kubeconfig : String) : List String :=
  ["kubectl", "api-resources", "--context", context, "--api-group=" ++ group] ++
    (if kubeconfig ≠ "" then ["--kubeconfig", kubeconfig] else [])

/-- The per-item loop of `_get_kubestellar_namespaces`.  `none` models an
exception while processing an item (missing or non-dict `metadata`,
missing or non-string `name`), which makes the whole helper return `[]`. -/
def collectKsNamespaces : List Json → Option (List String)
  | [] => some []
  | item :: rest =>
    match item with
    | .obj itemFields =>
      match jsonGet itemFields "metadata" with
      | some (.obj metaFields) =>
        match jsonGet metaFields "name" with
        | some (.str nsName) =>
          let labels := (jsonGet metaFields "labels").getD (.obj [])
          let keep := pyStartsWith nsName "kubestellar" ||
            pyStartsWith nsName "kube-" ||
            pyStartsWith nsName "open-cluster-management" ||
            pyContains (pyRepr labels) "kubestellar.io" ||
            pyContains (pyRepr labels) "open-cluster-management.io" ||
            nsName = "customization-properties"
          match collectKsNamespaces rest with
          | some l => some (if keep then nsName :: l else l)
          | none => none
        | _ => none
      | _ => none
    | _ => none

/-- `KubeStellarManagementFunction._get_kubestellar_namespaces`. -/
def getKubestellarNamespaces (w : World) (context kubeconfig : String) :
    List String × Trace :=
  let cmd := ["kubectl", "get", "namespaces", "--context", context, "-o", "json"] ++
    (if kubeconfig ≠ "" then ["--kubeconfig", kubeconfig] else [])
  let result := runCommand w cmd
  if result.returncode ≠ 0 then ([], [cmd])
  else
    match w.parseJson result.stdout with
    | some (.obj fields) =>
      match (jsonGet fields "items").getD (.arr []) with
      | .arr items => ((collectKsNamespaces items).getD [], [cmd])
      | _ => ([], [cmd])
    | _ => ([], [cmd])

/-- The names extracted from one `kubectl api-resources` listing in
`_get_kubestellar_api_resources`: skip the header line, then take the first
whitespace-separated column of each non-blank line. -/
def apiResourceNames (result : CmdResult) : List String :=
  if result.returncode = 0 then
    ((pySplitOn (pyStrip result.stdout) "\n").drop 1).foldl
      (fun acc line =>
        if pyStrip line ≠ "" then
          let parts := pySplitWs line
          if parts.length ≥ 1 then acc ++ [parts.headD ""] else acc
        else acc)
      []
  else []

/-- The per-group loop of `_get_kubestellar_api_resources`. -/
def apiResourcesLoop (w : World) (context kubeconfig : String) :
    List String → List String × Trace
  | [] => ([], [])
  | group :: rest =>
    let cmd := apiResourcesCmd context group kubeconfig
    let result := runCommand w cmd
    let restOut := apiResourcesLoop w context kubeconfig rest
    (apiResourceNames result ++ restOut.1, cmd :: restOut.2)

/-- `KubeStellarManagementFunction._get_kubestellar_api_resources`. -/
def getKubestellarApiResources (w : World) (context kubeconfig : String) :
    List String × Trace :=
  apiResourcesLoop w context kubeconfig
    ["control.kubestellar.io", "cluster.open-cluster-management.io",
     "work.open-cluster-management.io"]

/-- The `space_info` dict built by `_classify_kubestellar_space` (`status`
and `context` model the keys added later by the topology loop). -/
structure SpaceInfo where
  name : String
  type : String
  cluster : String
  apiResources : List String
  namespaces : List String
  kubestellarComponents : List (String × Bool)
  ocmComponents : List (String × Bool)
  status : Option String := none
  context : Option String := none
deriving DecidableEq, Repr

/-- `KubeStellarManagementFunction._classify_kubestellar_space`. -/
def classifyKubestellarSpace (w : World) (context kubeconfig : String) :
    SpaceInfo × Trace :=
  let cmd := apiResourcesCmd context "control.kubestellar.io" kubeconfig
  let result := runCommand w cmd
  let kubestellarResources := if result.returncode = 0 then result.stdout else ""
  let ocmCmd := apiResourcesCmd context "cluster.open-cluster-management.io" kubeconfig
  let ocmResult := runCommand w ocmCmd
  let ocmResources := if ocmResult.returncode = 0 then ocmResult.stdout else ""
  let classified : String × List (String × Bool) × List (String × Bool) :=
    if pyContains (pyLower kubestellarResources) "bindingpolicies" then
      ("wds", [("binding_controller", true), ("controller_manager", true)], [])
    else if pyContains (pyLower kubestellarResources) "workstatuses" then
      ("its", [("transport_controller", true), ("status_controller", true)], [])
    else if pyContains (pyLower ocmResources) "managedclusters" then
      ("its", [], [("cluster_manager", true)])
    else if pyContains (pyLower ocmResources) "manifestworks" then
      if pyStartsWith (pyLower context) "wds" ||
          pyContains (pyLower context) "-wds-" then ("wds", [], [])
      else ("wec", [], [("klusterlet", true)])
    else
      let contextLower := pyLower context
      if pyStartsWith contextLower "wds" || pyContains contextLower "-wds-" then
        ("wds", [], [])
      else if pyStartsWith contextLower "its" || pyContains contextLower "-its-" then
        ("its", [], [])
      else if pyStartsWith contextLower "wec" || pyContains contextLower "-wec-" then
        ("wec", [], [])
      else ("standard", [], [])
  let nsOut := getKubestellarNamespaces w context kubeconfig
  let apiOut := getKubestellarApiResources w context kubeconfig
  ({ name := context, type := classified.1, cluster := context,
     apiResources := apiOut.1, namespaces := nsOut.1,
     kubestellarComponents := classified.2.1,
     ocmComponents := classified.2.2 },
   [cmd, ocmCmd] ++ nsOut.2 ++ apiOut.2)

/-- The per-context body of the loop in `_discover_kubestellar_topology`:
classify the space, skip WDS spaces unless `include_wds`, then keep the
space only when its reachability probe succeeds. -/
def topoLoop (w : World) (kubeconfig : String) (includeWds : Bool) :
    List String → List SpaceInfo × Trace
  | [] => ([], [])
  | context :: rest =>
    if pyStrip context = "" then topoLoop w kubeconfig includeWds rest
    else
      let cls := classifyKubestellarSpace w context kubeconfig
      if cls.1.type = "wds" ∧ ¬includeWds then
        let restOut := topoLoop w kubeconfig includeWds rest
        (restOut.1, cls.2 ++ restOut.2)
      else
        let testCmd := clusterInfoCmd context kubeconfig
        let testResult := runCommand w testCmd
        let restOut := topoLoop w kubeconfig includeWds rest
        if testResult.returncode = 0 then
          ({ cls.1 with status := some "Ready", context := some context } :: restOut.1,
           cls.2 ++ [testCmd] ++ restOut.2)
        else (restOut.1, cls.2 ++ [testCmd] ++ restOut.2)

/-- `KubeStellarManagementFunction._discover_kubestellar_topology`. -/
def discoverKubestellarTopology (w : World) (kubeconfig : String)
    (includeWds : Bool) : List SpaceInfo × Trace :=
  let cmd := getContextsCmd kubeconfig
  let result := runCommand w cmd
  if result.returncode ≠ 0 then ([], [cmd])
  else
    let contexts := pySplitOn (pyStrip result.stdout) "\n"
    let looped := topoLoop w kubeconfig includeWds contexts
    (looped.1, cmd :: looped.2)

end A2A.KsMgmt

namespace A2A

/-- Python `s.replace(old, new)` for a non-empty `old`. -/
def pyReplace (s old new : String) : String := pyJoin new (pySplitOn s old)

/-- Python `s.split(sep, n)`: at most `n` splits. -/
def pySplitAtMost (s sep : String) (n : Nat) : List String :=
  let parts := pySplitOn s sep
  if parts.length ≤ n + 1 then parts
  else parts.take n ++ [pyJoin sep (parts.drop n)]

/-- The Python type name of a decoded JSON value, as it appears in an
`AttributeError` raised by calling `.get` on a non-dict. -/
def pyTypeName : Json → String
  | .null => "NoneType"
  | .bool _ => "bool"
  | .num _ => "int"
  | .str _ => "str"
  | .arr _ => "list"
  | .obj _ => "dict"

/-- The message of the `AttributeError` Python raises for `v.get(...)` when
`v` is not a dict. -/
def noGetAttrMsg (v : Json) : String :=
  "\x27" ++ pyTypeName v ++ "\x27 object has no attribute \x27get\x27"

end A2A

namespace A2A.Helm

/-! ## Embedding of `src/shared/functions/helm_deploy.py` (`HelmDeployFunction`) -/

/-- `HelmDeployFunction._is_wds_cluster`. -/
def isWdsCluster (clusterName : String) : Bool :=
  let lowerName := pyLower clusterName
  pyStartsWith lowerName "wds" || pyContains lowerName "-wds-" ||
    pyContains lowerName "_wds_"

/-- The per-context body of the discovery loop in
`HelmDeployFunction._discover_clusters`: probe reachability and keep the
context with status `Ready` or `Unreachable`. -/
def probeContexts (w : World) (kubeconfig : String) :
    List String → List Cluster × Trace
  | [] => ([], [])
  | context :: rest =>
    if pyStrip context = "" then probeContexts w kubeconfig rest
    else if isWdsCluster context then probeContexts w kubeconfig rest
    else
      let testCmd := clusterInfoCmd context kubeconfig
      let testResult := runCommand w testCmd
      let status := if testResult.returncode = 0 then "Ready" else "Unreachable"
      let restOut := probeContexts w kubeconfig rest
      (⟨context, context, status⟩ :: restOut.1, testCmd :: restOut.2)

/-- `HelmDeployFunction._discover_clusters`. -/
def discoverClusters (w : World) (kubeconfig : String) : List Cluster × Trace :=
  let cmd := getContextsCmd kubeconfig
  let result := runCommand w cmd
  if result.returncode ≠ 0 then ([], [cmd])
  else
    let contexts := pySplitOn (pyStrip result.stdout) "\n"
    let probed := probeContexts w kubeconfig contexts
    (probed.1, cmd :: probed.2)

/-- `HelmDeployFunction._filter_clusters` (this call site returns the full
cluster set when neither names nor labels are given). -/
def filterClusters (allClusters : List Cluster) (targetNames : List String)
    (clusterLabels : List String) : List Cluster :=
  if targetNames ≠ [] then
    let nameSet := targetNames.foldl
      (fun acc nameList => acc ++ (pySplitOn nameList ",").map pyStrip) []
    allClusters.filter (fun c => nameSet.contains c.name || nameSet.contains c.context)
  else if clusterLabels ≠ [] then allClusters
  else allClusters

/-- `HelmDeployFunction._resolve_target_namespaces` (textually identical to
the `deploy_to.py` version). -/
def resolveTargetNamespaces (w : World) (cluster : Cluster)
    (allNamespaces : Bool) (namespaceSelector : String)
    (targetNamespaces : List String) (nsParam kubeconfig : String) :
    List String × Trace :=
  if targetNamespaces ≠ [] then (targetNamespaces, [])
  else if allNamespaces || namespaceSelector ≠ "" then
    let cmd := DeployTo.getNamespacesCmd cluster.context namespaceSelector kubeconfig
    let result := runCommand w cmd
    if result.returncode = 0 then
      ((pySplitWs (pyStrip result.stdout)).filter (fun ns => ns ≠ ""), [cmd])
    else if nsParam ≠ "" then ([nsParam], [cmd])
    else (["default"], [cmd])
  else if nsParam ≠ "" then ([nsParam], [])
  else (["default"], [])

/-- `HelmDeployFunction._validate_inputs` (the error messages of the
returned `{"status": "error", "error": ...}` dictionaries). -/
def validateInputs (chartName chartPath repositoryUrl repositoryName
    operation releaseName : String) : Option String :=
  if (operation = "install" ∨ operation = "upgrade") ∧
      chartName = "" ∧ chartPath = "" then
    some "Either chart_name or chart_path must be specified for install/upgrade operations"
  else if (operation = "install" ∨ operation = "upgrade") ∧ chartName ≠ "" ∧
      repositoryUrl = "" ∧ repositoryName = "" ∧ chartPath = "" then
    some "repository_url, repository_name, or chart_path must be specified when using chart_name"
  else if (operation = "uninstall" ∨ operation = "status" ∨ operation = "history") ∧
      releaseName = "" ∧ chartName = "" then
    some ("release_name is required for " ++ operation ++ " operation")
  else none

/-- `HelmDeployFunction._prepare_kubestellar_labels`. -/
def prepareKubestellarLabels (releaseName chartName : String)
    (additionalLabels : List (String × String)) : List (String × String) :=
  let base :=
    [("app.kubernetes.io/managed-by", "Helm"),
     ("app.kubernetes.io/instance", releaseName),
     ("kubestellar.io/helm-chart",
      if chartName ≠ "" then pyReplace chartName "/" "-" else releaseName),
     ("kubestellar.io/helm-release", releaseName)]
  let withName :=
    if chartName ≠ "" then
      pyDictInsert "app.kubernetes.io/name" ((pySplitOn chartName "/").getLastD "") base
    else base
  additionalLabels.foldl (fun acc kv => pyDictInsert kv.1 kv.2 acc) withName

/-- `HelmDeployFunction._parse_cluster_values`. -/
def parseClusterValues (clusterValues : List String) : List (String × String) :=
  clusterValues.foldl
    (fun acc clusterValue =>
      if pyContains clusterValue "=" then
        let parts := pySplitOnce clusterValue "="
        pyDictInsert (pyStrip parts.1) (pyStrip parts.2) acc
      else acc)
    []

/-- `HelmDeployFunction._parse_cluster_set_values`. -/
def parseClusterSetValues (clusterSetValues : List String) :
    List (String × List String) :=
  clusterSetValues.foldl
    (fun acc clusterSetValue =>
      let parts := pySplitAtMost clusterSetValue "=" 2
      if parts.length ≥ 3 then
        let clusterName := pyStrip (parts.headD "")
        let keyValue := parts[1]! ++ "=" ++ parts[2]!
        match pyDictGet acc clusterName with
        | some l => pyDictInsert clusterName (l ++ [keyValue]) acc
        | none => pyDictInsert clusterName [keyValue] acc
      else acc)
    []

/-- `HelmDeployFunction._build_helm_command`. -/
def buildHelmCommand (operation releaseName chartName chartVersion
    repositoryUrl repositoryName chartPath : String) (cluster : Cluster)
    (nsName valuesFile : String) (valuesFiles : List String)
    (clusterValuesMap : List (String × String)) (setValues : List String)
    (clusterSetValuesMap : List (String × List String))
    (wait : Bool) (timeout : String) (atomic : Bool) (kubeconfig : String)
    (helmLabels : List (String × String)) : List String :=
  ["helm", operation] ++
    (if operation = "install" ∨ operation = "upgrade" then
      [releaseName] ++
        (if chartPath ≠ "" then [chartPath]
         else if repositoryUrl ≠ "" then ["--repo", repositoryUrl, chartName]
         else if repositoryName ≠ "" then [repositoryName ++ "/" ++ chartName]
         else [chartName]) ++
        (if chartVersion ≠ "" then ["--version", chartVersion] else []) ++
        (if valuesFile ≠ "" then ["-f", valuesFile] else []) ++
        (valuesFiles.map fun vf => ["-f", vf]).flatten ++
        (if (pyDictGet clusterValuesMap cluster.name).getD "" ≠ "" then
          ["-f", (pyDictGet clusterValuesMap cluster.name).getD ""]
         else []) ++
        (setValues.map fun sv => ["--set", sv]).flatten ++
        (((pyDictGet clusterSetValuesMap cluster.name).getD []).map fun sv =>
          ["--set", sv]).flatten ++
        (helmLabels.map fun kv => ["--set", "labels." ++ kv.1 ++ "=" ++ kv.2]).flatten ++
        (if wait then ["--wait"] else []) ++
        (if timeout ≠ "" then ["--timeout", timeout] else []) ++
        (if atomic then ["--atomic"] else []) ++
        (if operation = "upgrade" then ["--install"] else [])
     else if operation = "uninstall" then [releaseName]
     else []) ++
    ["--kube-context", cluster.context, "--namespace", nsName] ++
    (if kubeconfig ≠ "" then ["--kubeconfig", kubeconfig] else [])

/-- `HelmDeployFunction._ensure_namespace_exists` (returns only the trace:
the function has no return value). -/
def ensureNamespaceExists (w : World) (cluster : Cluster)
    (nsName kubeconfig : String) (labels : List (String × String)) : Trace :=
  let kc := if kubeconfig ≠ "" then ["--kubeconfig", kubeconfig] else []
  let checkCmd := ["kubectl", "get", "namespace", nsName, "--context",
    cluster.context] ++ kc
  let result := runCommand w checkCmd
  let createPart :=
    if result.returncode ≠ 0 then
      [["kubectl", "create", "namespace", nsName, "--context", cluster.context] ++ kc]
    else []
  let labelCmds := labels.map fun kv =>
    ["kubectl", "label", "namespace", nsName, kv.1 ++ "=" ++ kv.2,
     "--context", cluster.context, "--overwrite"] ++ kc
  [checkCmd] ++ createPart ++ labelCmds

/-- `HelmDeployFunction._label_helm_secret` (returns only the trace). -/
def labelHelmSecret (w : World) (cluster : Cluster)
    (nsName releaseName : String) (labels : List (String × String))
    (kubeconfig : String) : Trace :=
  let kc := if kubeconfig ≠ "" then ["--kubeconfig", kubeconfig] else []
  let getSecretCmd := ["kubectl", "get", "secrets", "--context", cluster.context,
    "--namespace", nsName, "-l", "name=" ++ releaseName, "-l", "owner=helm",
    "-o", "jsonpath=\x7b.items[0].metadata.name\x7d"] ++ kc
  let result := runCommand w getSecretCmd
  if result.returncode = 0 ∧ pyStrip result.stdout ≠ "" then
    let secretName := pyStrip result.stdout
    [getSecretCmd] ++ labels.map fun kv =>
      ["kubectl", "label", "secret", secretName, kv.1 ++ "=" ++ kv.2,
       "--context", cluster.context, "--namespace", nsName, "--overwrite"] ++ kc
  else [getSecretCmd]

/-- The release-information dictionary `_parse_helm_output` extracts from a
successfully parsed `helm status -o json` document; `none` models one of
the `.get` chains raising (caught by the surrounding `except`). -/
def helmStatusInfo (releaseName : String) (j : Json) :
    Option (List (String × Json)) :=
  match j with
  | .obj fields =>
    match (KsMgmt.jsonGet fields "info").getD (.obj []),
        (KsMgmt.jsonGet fields "chart").getD (.obj []) with
    | .obj infoFields, .obj chartFields =>
      match (KsMgmt.jsonGet chartFields "metadata").getD (.obj []) with
      | .obj metaFields =>
        some [("release_name", (KsMgmt.jsonGet fields "name").getD (.str releaseName)),
              ("revision", (KsMgmt.jsonGet fields "version").getD (.str "unknown")),
              ("status", (KsMgmt.jsonGet infoFields "status").getD (.str "unknown")),
              ("chart_name", (KsMgmt.jsonGet metaFields "name").getD (.str "")),
              ("chart_version", (KsMgmt.jsonGet metaFields "version").getD (.str "")),
              ("app_version", (KsMgmt.jsonGet metaFields "appVersion").getD (.str ""))]
      | _ => none
    | _, _ => none
  | _ => none

/-- `HelmDeployFunction._parse_helm_output`: query `helm status -o json`
and extract release information; any exception falls back to the basic
3-key dictionary, and a failed status command leaves the info empty. -/
def parseHelmOutput (w : World) (output operation releaseName : String)
    (cluster : Cluster) (nsName kubeconfig : String) :
    List (String × Json) × Trace :=
  let statusCmd := ["helm", "status", releaseName, "--kube-context",
    cluster.context, "--namespace", nsName, "-o", "json"] ++
    (if kubeconfig ≠ "" then ["--kubeconfig", kubeconfig] else [])
  let result := runCommand w statusCmd
  if result.returncode = 0 then
    match (w.parseJson result.stdout).bind (helmStatusInfo releaseName) with
    | some info => (info, [statusCmd])
    | none =>
      ([("release_name", .str releaseName), ("revision", .str "unknown"),
        ("status", .str (if operation = "install" ∨ operation = "upgrade" then
          "deployed" else "unknown"))], [statusCmd])
  else ([], [statusCmd])

/-- One per-namespace outcome dictionary in the Helm fan-out.  `status` is a
JSON value because the `{"status": "success", "output": ..., **release_info}`
merge in `_deploy_to_cluster` lets `release_info["status"]` (an arbitrary
JSON value from `helm status`) overwrite the string `"success"`.  `info`
records the merged-in `release_info` pairs; `releaseInfo` models the
separate `release_info` key of `_get_helm_info`. -/
structure HelmUnitOutcome where
  status : Json
  output : String
  error : Option String := none
  info : List (String × Json) := []
  releaseInfo : Option (List (String × Json)) := none

/-- Python `v == "success"` for a JSON-valued `v`. -/
def Json.isStr : Json → String → Bool
  | .str t, s => t = s
  | _, _ => false

/-- The `{"status": "success", "output": ..., **release_info}` merge. -/
def helmUnitSuccess (stdout : String) (releaseInfo : List (String × Json)) :
    HelmUnitOutcome :=
  { status := (KsMgmt.jsonGet releaseInfo "status").getD (.str "success"),
    output := stdout, info := releaseInfo }

/-- Cluster-level result dictionary of the Helm operations.  The namespace
counters are `none` for `_uninstall_helm_chart` / `_get_helm_info`, whose
cluster dictionaries carry no `namespaces_*` keys. -/
structure HelmClusterOutcome where
  status : String
  cluster : String
  namespacesTotal : Option Nat := none
  namespacesSucceeded : Option Nat := none
  namespacesFailed : Option Nat := none
  namespaceResults : List (String × HelmUnitOutcome)

/-- One iteration of the namespace loop in
`HelmDeployFunction._deploy_to_cluster`: optionally ensure the namespace,
run the Helm command, and on success parse the release info and label the
Helm secret. -/
def helmDeployUnit (w : World) (cluster : Cluster)
    (chartName chartVersion repositoryUrl repositoryName chartPath
      releaseName valuesFile : String) (valuesFiles : List String)
    (clusterValuesMap : List (String × String)) (setValues : List String)
    (clusterSetValuesMap : List (String × List String))
    (createNamespace wait : Bool) (timeout : String) (atomic : Bool)
    (operation kubeconfig : String) (helmLabels : List (String × String))
    (nsName : String) : HelmUnitOutcome × Trace :=
  let nsTrace :=
    if createNamespace then
      ensureNamespaceExists w cluster nsName kubeconfig helmLabels
    else []
  let cmd := buildHelmCommand operation releaseName chartName chartVersion
    repositoryUrl repositoryName chartPath cluster nsName valuesFile
    valuesFiles clusterValuesMap setValues clusterSetValuesMap wait timeout
    atomic kubeconfig helmLabels
  let result := runCommand w cmd
  if result.returncode = 0 then
    let parsed := parseHelmOutput w result.stdout operation releaseName
      cluster nsName kubeconfig
    let secretTrace := labelHelmSecret w cluster nsName releaseName
      helmLabels kubeconfig
    (helmUnitSuccess result.stdout parsed.1,
     nsTrace ++ [cmd] ++ parsed.2 ++ secretTrace)
  else
    let errorOutput := if result.stderr ≠ "" then result.stderr else result.stdout
    ({ status := .str "error",
       error := some ("Helm " ++ operation ++ " failed: " ++ errorOutput),
       output := errorOutput }, nsTrace ++ [cmd])

/-- `HelmDeployFunction._deploy_to_cluster`. -/
def helmDeployToCluster (w : World) (cluster : Cluster)
    (chartName chartVersion repositoryUrl repositoryName chartPath
      releaseName : String) (targetNamespaces : List String)
    (valuesFile : String) (valuesFiles : List String)
    (clusterValuesMap : List (String × String)) (setValues : List String)
    (clusterSetValuesMap : List (String × List String))
    (createNamespace wait : Bool) (timeout : String) (atomic : Bool)
    (operation kubeconfig : String) (helmLabels : List (String × String)) :
    HelmClusterOutcome × Trace :=
  let namespaceResults := pyDictOfList (targetNamespaces.map fun nsName =>
    (nsName, (helmDeployUnit w cluster chartName chartVersion repositoryUrl
      repositoryName chartPath releaseName valuesFile valuesFiles
      clusterValuesMap setValues clusterSetValuesMap createNamespace wait
      timeout atomic operation kubeconfig helmLabels nsName).1))
  let successCount := namespaceResults.countP
    (fun r => Json.isStr r.2.status "success")
  let totalCount := namespaceResults.length
  ({ status := if 0 < successCount then "success" else "error",
     cluster := cluster.name,
     namespacesTotal := some totalCount,
     namespacesSucceeded := some successCount,
     namespacesFailed := some (totalCount - successCount),
     namespaceResults := namespaceResults },
   (targetNamespaces.map fun nsName =>
     (helmDeployUnit w cluster chartName chartVersion repositoryUrl
       repositoryName chartPath releaseName valuesFile valuesFiles
       clusterValuesMap setValues clusterSetValuesMap createNamespace wait
       timeout atomic operation kubeconfig helmLabels nsName).2).flatten)

/-- The envelope shared by `_deploy_helm_chart`, `_uninstall_helm_chart`
and `_get_helm_info`. -/
structure HelmOpResult where
  status : String
  operation : String
  clustersTotal : Nat
  clustersSucceeded : Nat
  clustersFailed : Nat
  results : List (String × HelmClusterOutcome)

/-- `HelmDeployFunction._deploy_helm_chart`. -/
def deployHelmChart (w : World) (clusters : List Cluster)
    (chartName chartVersion repositoryUrl repositoryName chartPath
      releaseName : String) (targetNamespaces : List String)
    (valuesFile : String) (valuesFiles clusterValues setValues
      clusterSetValues : List String) (createNamespace wait : Bool)
    (timeout : String) (atomic : Bool) (operation kubeconfig : String)
    (helmLabels : List (String × String)) : HelmOpResult × Trace :=
  let clusterValuesMap := parseClusterValues clusterValues
  let clusterSetValuesMap := parseClusterSetValues clusterSetValues
  let results := pyDictOfList (clusters.map fun c =>
    (c.name, (helmDeployToCluster w c chartName chartVersion repositoryUrl
      repositoryName chartPath releaseName targetNamespaces valuesFile
      valuesFiles clusterValuesMap setValues clusterSetValuesMap
      createNamespace wait timeout atomic operation kubeconfig helmLabels).1))
  let successCount := results.countP (fun r => r.2.status == "success")
  ({ status := if 0 < successCount then "success" else "error",
     operation := operation,
     clustersTotal := clusters.length,
     clustersSucceeded := successCount,
     clustersFailed := clusters.length - successCount,
     results := results },
   (clusters.map fun c =>
     (helmDeployToCluster w c chartName chartVersion repositoryUrl
       repositoryName chartPath releaseName targetNamespaces valuesFile
       valuesFiles clusterValuesMap setValues clusterSetValuesMap
       createNamespace wait timeout atomic operation kubeconfig
       helmLabels).2).flatten)

/-- `HelmDeployFunction._uninstall_helm_chart`. -/
def uninstallHelmChart (w : World) (clusters : List Cluster)
    (releaseName : String) (targetNamespaces : List String)
    (kubeconfig : String) : HelmOpResult × Trace :=
  let kc := if kubeconfig ≠ "" then ["--kubeconfig", kubeconfig] else []
  let unitCmd := fun (cluster : Cluster) (nsName : String) =>
    ["helm", "uninstall", releaseName, "--kube-context", cluster.context,
     "--namespace", nsName] ++ kc
  let unitOutcome := fun (cluster : Cluster) (nsName : String) =>
    let result := runCommand w (unitCmd cluster nsName)
    if result.returncode = 0 then
      ({ status := .str "success", output := result.stdout } : HelmUnitOutcome)
    else
      let errorOutput := if result.stderr ≠ "" then result.stderr else result.stdout
      { status := .str "error",
        error := some ("Helm uninstall failed: " ++ errorOutput),
        output := errorOutput }
  let clusterResult := fun (cluster : Cluster) =>
    let namespaceResults := pyDictOfList (targetNamespaces.map fun nsName =>
      (nsName, unitOutcome cluster nsName))
    let successCount := namespaceResults.countP
      (fun r => Json.isStr r.2.status "success")
    ({ status := if 0 < successCount then "success" else "error",
       cluster := cluster.name,
       namespaceResults := namespaceResults } : HelmClusterOutcome)
  let results := pyDictOfList (clusters.map fun c => (c.name, clusterResult c))
  let successCount := results.countP (fun r => r.2.status == "success")
  ({ status := if 0 < successCount then "success" else "error",
     operation := "uninstall",
     clustersTotal := clusters.length,
     clustersSucceeded := successCount,
     clustersFailed := clusters.length - successCount,
     results := results },
   (clusters.map fun c => targetNamespaces.map fun nsName =>
     unitCmd c nsName).flatten)

/-- The `release_info` dictionary `_get_helm_info` adds for the `status`
operation; `.error m` models the uncaught `AttributeError` raised by a
`.get` chain on a non-dict (only `json.JSONDecodeError` is caught there). -/
def helmInfoReleaseInfo (releaseName : String) (j : Json) :
    Except String (List (String × Json)) :=
  match j with
  | .obj fields =>
    match (KsMgmt.jsonGet fields "info").getD (.obj []) with
    | .obj infoFields =>
      .ok [("name", (KsMgmt.jsonGet fields "name").getD (.str releaseName)),
           ("revision", (KsMgmt.jsonGet fields "version").getD (.str "unknown")),
           ("status", (KsMgmt.jsonGet infoFields "status").getD (.str "unknown")),
           ("chart", (KsMgmt.jsonGet fields "chart").getD (.obj [])),
           ("last_deployed",
            (KsMgmt.jsonGet infoFields "last_deployed").getD (.str ""))]
    | other => .error (noGetAttrMsg other)
  | other => .error (noGetAttrMsg other)

/-- The namespace loop of `_get_helm_info` for one cluster; an uncaught
exception aborts the whole operation. -/
def helmInfoNsLoop (w : World) (cluster : Cluster)
    (releaseName operation kubeconfig : String) :
    List String → Except String (List (String × HelmUnitOutcome)) × Trace
  | [] => (.ok [], [])
  | nsName :: rest =>
    let cmd := ["helm", operation, releaseName, "--kube-context",
      cluster.context, "--namespace", nsName] ++
      (if operation = "status" then ["-o", "json"] else []) ++
      (if kubeconfig ≠ "" then ["--kubeconfig", kubeconfig] else [])
    let result := runCommand w cmd
    let entry : Except String HelmUnitOutcome :=
      if result.returncode = 0 then
        let baseInfo : HelmUnitOutcome :=
          { status := .str "success", output := result.stdout }
        if operation = "status" then
          match w.parseJson result.stdout with
          | none => .ok baseInfo
          | some j =>
            match helmInfoReleaseInfo releaseName j with
            | .ok releaseInfo => .ok { baseInfo with releaseInfo := some releaseInfo }
            | .error e => .error e
        else .ok baseInfo
      else
        let errorOutput := if result.stderr ≠ "" then result.stderr else result.stdout
        .ok { status := .str "error",
              error := some ("Helm " ++ operation ++ " failed: " ++ errorOutput),
              output := errorOutput }
    match entry with
    | .error e => (.error e, [cmd])
    | .ok ent =>
      let restOut := helmInfoNsLoop w cluster releaseName operation kubeconfig rest
      match restOut.1 with
      | .ok l => (.ok ((nsName, ent) :: l), cmd :: restOut.2)
      | .error e => (.error e, cmd :: restOut.2)

/-- The cluster loop of `_get_helm_info`. -/
def helmInfoClusterLoop (w : World) (releaseName operation kubeconfig : String)
    (targetNamespaces : List String) :
    List Cluster → Except String (List (String × HelmClusterOutcome)) × Trace
  | [] => (.ok [], [])
  | cluster :: rest =>
    let nsOut := helmInfoNsLoop w cluster releaseName operation kubeconfig
      targetNamespaces
    match nsOut.1 with
    | .error e => (.error e, nsOut.2)
    | .ok pairs =>
      let namespaceResults := pyDictOfList pairs
      let successCount := namespaceResults.countP
        (fun r => Json.isStr r.2.status "success")
      let clusterResult : HelmClusterOutcome :=
        { status := if 0 < successCount then "success" else "error",
          cluster := cluster.name,
          namespaceResults := namespaceResults }
      let restOut := helmInfoClusterLoop w releaseName operation kubeconfig
        targetNamespaces rest
      match restOut.1 with
      | .ok l => (.ok (pyDictInsert cluster.name clusterResult l), nsOut.2 ++ restOut.2)
      | .error e => (.error e, nsOut.2 ++ restOut.2)

/-- `HelmDeployFunction._get_helm_info`. -/
def getHelmInfo (w : World) (clusters : List Cluster)
    (releaseName : String) (targetNamespaces : List String)
    (operation kubeconfig : String) : Except String HelmOpResult × Trace :=
  let looped := helmInfoClusterLoop w releaseName operation kubeconfig
    targetNamespaces clusters
  match looped.1 with
  | .error e => (.error e, looped.2)
  | .ok results =>
    let successCount := results.countP (fun r => r.2.status == "success")
    (.ok { status := if 0 < successCount then "success" else "error",
           operation := operation,
           clustersTotal := clusters.length,
           clustersSucceeded := successCount,
           clustersFailed := clusters.length - successCount,
           results := results }, looped.2)

/-- The BindingPolicy object `_create_binding_policy` builds (its YAML dump
is written to a temporary file; only the `spec` is otherwise reported). -/
structure BindingPolicy where
  apiVersion : String
  kind : String
  name : String
  metaLabels : List (String × String)
  clusterSelectors : List (List (String × String))
  objectSelectors : List (List (String × String))
deriving DecidableEq, Repr

/-- The dictionary `_create_binding_policy` returns. -/
structure BindingPolicyResult where
  status : String
  policyName : String
  policySpec : Option BindingPolicy := none
  output : Option String := none
  error : Option String := none
deriving DecidableEq, Repr

/-- `HelmDeployFunction._create_binding_policy`. -/
def createBindingPolicy (w : World) (policyName releaseName : String)
    (helmLabels clusterSelectorLabels : List (String × String))
    (targetNamespaces : List String) (wdsContext kubeconfig : String) :
    BindingPolicyResult × Trace :=
  let clusterSelectors :=
    if clusterSelectorLabels ≠ [] then [clusterSelectorLabels]
    else [[("location-group", "edge")]]
  let baseObjectSelectors :=
    [[("app.kubernetes.io/managed-by", "Helm"),
      ("app.kubernetes.io/instance", releaseName)]]
  let additionalLabels :=
    if helmLabels ≠ [] then
      helmLabels.filter (fun kv =>
        kv.1 ≠ "app.kubernetes.io/managed-by" ∧
        kv.1 ≠ "app.kubernetes.io/instance")
    else []
  let objectSelectors :=
    if additionalLabels ≠ [] then baseObjectSelectors ++ [additionalLabels]
    else baseObjectSelectors
  let bindingPolicy : BindingPolicy :=
    { apiVersion := "control.kubestellar.io/v1alpha1",
      kind := "BindingPolicy",
      name := policyName,
      metaLabels :=
        [("kubestellar.io/helm-chart",
          (pyDictGet helmLabels "kubestellar.io/helm-chart").getD releaseName),
         ("kubestellar.io/helm-release", releaseName)],
      clusterSelectors := clusterSelectors,
      objectSelectors := objectSelectors }
  let applyCmd := ["kubectl", "apply", "-f", w.tempFile] ++
    (if wdsContext ≠ "" then ["--context", wdsContext] else []) ++
    (if kubeconfig ≠ "" then ["--kubeconfig", kubeconfig] else [])
  let result := runCommand w applyCmd
  if result.returncode = 0 then
    ({ status := "success", policyName := policyName,
       policySpec := some bindingPolicy, output := some result.stdout },
     [applyCmd])
  else
    ({ status := "error", policyName := policyName,
       error := some ("Failed to create binding policy: " ++
         (if result.stderr ≠ "" then result.stderr else result.stdout)) },
     [applyCmd])

/-- The `deployment_plan` dictionary built by `HelmDeployFunction.execute`. -/
structure HelmPlan where
  operation : String
  releaseName : String
  chartName : String
  chartVersion : String
  targetClusters : List String
  targetNamespaces : List String
  bindingPolicyCreate : Bool
  bindingPolicyName : String
  clusterSelectorLabels : List (String × String)
  kubestellarLabels : List (String × String)
deriving DecidableEq, Repr

/-- The shapes of dictionaries `HelmDeployFunction.execute` can return. -/
inductive HelmResponse where
  | err (error : String) : HelmResponse
  | errAvailable (error : String) (availableClusters : List (String × String)) :
      HelmResponse
  | dryRunPlan (plan : HelmPlan) (clustersSelected : Nat) : HelmResponse
  | completed (result : HelmOpResult) (plan : HelmPlan)
      (bindingPolicy : Option BindingPolicyResult) : HelmResponse

/-- Whether the response is the post-operation envelope. -/
def HelmResponse.isCompleted : HelmResponse → Bool
  | .completed _ _ _ => true
  | _ => false

/-- Whether the response is the dry-run envelope. -/
def HelmResponse.isDryRun : HelmResponse → Bool
  | .dryRunPlan _ _ => true
  | _ => false

/-- The `status` field of the returned dictionary. -/
def HelmResponse.statusOf : HelmResponse → String
  | .err _ => "error"
  | .errAvailable _ _ => "error"
  | .dryRunPlan _ _ => "success"
  | .completed result _ _ => result.status

/-- The `binding_policy` field (`none` for shapes without it). -/
def HelmResponse.bindingPolicyOf : HelmResponse → Option BindingPolicyResult
  | .completed _ _ bp => bp
  | _ => none

/-- The deployment-result `status` of a `completed` envelope. -/
def HelmResponse.deployStatus : HelmResponse → String
  | .completed result _ _ => result.status
  | _ => ""

/-- The deployment-result counters of a `completed` envelope. -/
def HelmResponse.deployCounts : HelmResponse → Nat × Nat × Nat
  | .completed result _ _ =>
    (result.clustersTotal, result.clustersSucceeded, result.clustersFailed)
  | _ => (0, 0, 0)

/-- The keyword arguments of `HelmDeployFunction.execute`, with the
source's defaults (`None` parameters modelled as `[]`; the Python
`namespace` parameter is called `nsParam`). -/
structure HelmParams where
  chartName : String := ""
  chartVersion : String := ""
  repositoryUrl : String := ""
  repositoryName : String := ""
  chartPath : String := ""
  releaseName : String := ""
  targetClusters : List String := []
  clusterLabels : List String := []
  nsParam : String := "default"
  allNamespaces : Bool := false
  namespaceSelector : String := ""
  targetNamespaces : List String := []
  valuesFile : String := ""
  valuesFiles : List String := []
  clusterValues : List String := []
  setValues : List String := []
  clusterSetValues : List String := []
  createNamespace : Bool := true
  wait : Bool := true
  timeout : String := "5m"
  atomic : Bool := false
  dryRun : Bool := false
  operation : String := "install"
  kubeconfig : String := ""
  remoteContext : String := ""
  createBindingPolicy : Bool := true
  bindingPolicyName : String := ""
  clusterSelectorLabels : List (String × String) := []
  kubestellarLabels : List (String × String) := []
  wdsContext : String := ""
deriving DecidableEq, Repr

/-- `HelmDeployFunction.execute`. -/
def execute (w : World) (p : HelmParams) : HelmResponse × Trace :=
  match validateInputs p.chartName p.chartPath p.repositoryUrl
    p.repositoryName p.operation p.releaseName with
  | some e => (.err e, [])
  | none =>
    let releaseName :=
      if p.releaseName ≠ "" then p.releaseName
      else if p.chartName ≠ "" then pyReplace p.chartName "/" "-"
      else "helm-release"
    let bindingPolicyName :=
      if p.bindingPolicyName ≠ "" then p.bindingPolicyName
      else releaseName ++ "-helm-policy"
    let discovered := discoverClusters w p.kubeconfig
    if discovered.1 = [] then (.err "No clusters discovered", discovered.2)
    else
      let selectedClusters :=
        filterClusters discovered.1 p.targetClusters p.clusterLabels
      if selectedClusters = [] then
        (.errAvailable "No clusters match the selection criteria"
          (discovered.1.map fun c => (c.name, c.context)), discovered.2)
      else
        let resolved := resolveTargetNamespaces w
          (selectedClusters.headD ⟨"", "", ""⟩) p.allNamespaces
          p.namespaceSelector p.targetNamespaces p.nsParam p.kubeconfig
        let helmLabels := prepareKubestellarLabels releaseName p.chartName
          p.kubestellarLabels
        let deploymentPlan : HelmPlan :=
          { operation := p.operation, releaseName := releaseName,
            chartName := p.chartName, chartVersion := p.chartVersion,
            targetClusters := selectedClusters.map (·.name),
            targetNamespaces := resolved.1,
            bindingPolicyCreate := p.createBindingPolicy,
            bindingPolicyName := bindingPolicyName,
            clusterSelectorLabels := p.clusterSelectorLabels,
            kubestellarLabels := helmLabels }
        if p.dryRun then
          (.dryRunPlan deploymentPlan selectedClusters.length,
           discovered.2 ++ resolved.2)
        else
          let mkCompleted := fun (res : HelmOpResult) (opTrace : Trace) =>
            let bindingPolicyOut :=
              if p.createBindingPolicy ∧
                  (p.operation = "install" ∨ p.operation = "upgrade") ∧
                  res.status = "success" then
                some (createBindingPolicy w bindingPolicyName releaseName
                  helmLabels p.clusterSelectorLabels resolved.1 p.wdsContext
                  p.kubeconfig)
              else none
            ((.completed res deploymentPlan (bindingPolicyOut.map (·.1)) :
                HelmResponse),
             discovered.2 ++ resolved.2 ++ opTrace ++
               ((bindingPolicyOut.map (·.2)).getD []))
          if p.operation = "install" ∨ p.operation = "upgrade" then
            let dep := deployHelmChart w selectedClusters p.chartName
              p.chartVersion p.repositoryUrl p.repositoryName p.chartPath
              releaseName resolved.1 p.valuesFile p.valuesFiles
              p.clusterValues p.setValues p.clusterSetValues
              p.createNamespace p.wait p.timeout p.atomic p.operation
              p.kubeconfig helmLabels
            mkCompleted dep.1 dep.2
          else if p.operation = "uninstall" then
            let dep := uninstallHelmChart w selectedClusters releaseName
              resolved.1 p.kubeconfig
            mkCompleted dep.1 dep.2
          else if p.operation = "status" ∨ p.operation = "history" then
            let infoOut := getHelmInfo w selectedClusters releaseName
              resolved.1 p.operation p.kubeconfig
            match infoOut.1 with
            | .ok res => mkCompleted res infoOut.2
            | .error e =>
              (.err ("Failed to execute Helm deployment: " ++ e),
               discovered.2 ++ resolved.2 ++ infoOut.2)
          else
            (.err ("Unsupported operation: " ++ p.operation),
             discovered.2 ++ resolved.2)

end A2A.Helm

namespace A2A

/-! ## Derived observations and concrete environments used by the theorems -/

/-- Total number of unit outcomes in a fan-out result tree: the sum over
cluster entries of the number of per-namespace entries. -/
def unitOutcomeCount (results : List (String × ClusterOutcome)) : Nat :=
  (results.map fun pr => pr.2.namespaceResults.length).sum

/-- An environment in which every launch succeeds with empty output. -/
def wEmpty : World :=
  { launch := fun _ => .ok ⟨0, "", ""⟩,
    parseJson := fun _ => none,
    tempFile := "policy.yaml" }

/-- An environment in which every launch raises (the binary is missing). -/
def wFail : World :=
  { launch := fun _ =>
      .error "[Errno 2] No such file or directory: \x27kubectl\x27",
    parseJson := fun _ => none,
    tempFile := "policy.yaml" }

/-- Two contexts, both reachable; deploying to `c2` fails. -/
def wC1 : World :=
  { launch := fun cmd =>
      if cmd = getContextsCmd "" then .ok ⟨0, "c1\nc2", ""⟩
      else if cmd = DeployTo.deployUnitCmd ⟨"c2", "c2", "Ready"⟩ "app.yaml"
          "" "" "" [] "" "default" then
        .ok ⟨1, "", "error: connection refused"⟩
      else .ok ⟨0, "ok", ""⟩,
    parseJson := fun _ => none,
    tempFile := "policy.yaml" }

/-- A deploy call to both clusters of `wC1` with the default namespace. -/
def pC1 : DeployTo.DeployParams :=
  { targetClusters := ["c1,c2"], filename := "app.yaml" }

/-- One reachable context; every deployment command succeeds. -/
def wC2 : World :=
  { launch := fun cmd =>
      if cmd = getContextsCmd "" then .ok ⟨0, "c1", ""⟩
      else .ok ⟨0, "ok", ""⟩,
    parseJson := fun _ => none,
    tempFile := "policy.yaml" }

/-- A deploy call that lists the same target namespace twice. -/
def pC2 : DeployTo.DeployParams :=
  { targetClusters := ["c1"], filename := "app.yaml",
    targetNamespaces := ["app", "app"] }

/-- One configured context whose reachability probe fails. -/
def wC3 : World :=
  { launch := fun cmd =>
      if cmd = getContextsCmd "" then .ok ⟨0, "badctx", ""⟩
      else if cmd = clusterInfoCmd "badctx" "" then
        .ok ⟨1, "", "Unable to connect to the server"⟩
      else .ok ⟨0, "", ""⟩,
    parseJson := fun _ => none,
    tempFile := "policy.yaml" }

/-- Every launch fails with an `already exists` diagnostic. -/
def wC4 : World :=
  { launch := fun _ =>
      .ok ⟨1, "", "Error: services \x22foo\x22 already exists"⟩,
    parseJson := fun _ => none,
    tempFile := "policy.yaml" }

/-- One configured context named `x_wds_y` (matching the `_wds_` naming
heuristic) that exposes no KubeStellar or OCM API resources and is
reachable. -/
def wC5 : World :=
  { launch := fun cmd =>
      if cmd = getContextsCmd "" then .ok ⟨0, "x_wds_y", ""⟩
      else .ok ⟨0, "", ""⟩,
    parseJson := fun _ => none,
    tempFile := "policy.yaml" }

/-- One configured context named `wds1`, reachable and exposing no special
API resources, so the topology classifier types it `wds` by name. -/
def wC5b : World :=
  { launch := fun cmd =>
      if cmd = getContextsCmd "" then .ok ⟨0, "wds1", ""⟩
      else .ok ⟨0, "", ""⟩,
    parseJson := fun _ => none,
    tempFile := "policy.yaml" }

/-- One reachable context; `helm install` and the binding-policy apply
succeed, while `helm status` fails (leaving the unit outcome `success`). -/
def wC8 : World :=
  { launch := fun cmd =>
      if cmd = getContextsCmd "" then .ok ⟨0, "cluster1", ""⟩
      else if cmd.headD "" = "helm" ∧ cmd.getD 1 "" = "status" then
        .ok ⟨1, "", "release: not found"⟩
      else .ok ⟨0, "ok", ""⟩,
    parseJson := fun _ => none,
    tempFile := "policy.yaml" }

/-- A Helm install against `wC8` from a local chart path. -/
def pC8 : Helm.HelmParams :=
  { chartPath := "./chart", targetClusters := ["cluster1"],
    targetNamespaces := ["default"] }

/-- A Helm dry run resolving namespaces with `all_namespaces`. -/
def pC10 : Helm.HelmParams :=
  { chartPath := "./chart", targetClusters := ["cluster1"],
    allNamespaces := true, dryRun := true }

end A2A

namespace A2A

/-! ## Lemmas about the Python-dictionary model -/

theorem mem_pyDictInsert {α : Type} {k : String} {v : α} :
    ∀ (l : List (String × α)) (q : String × α),
      q ∈ pyDictInsert k v l → q = (k, v) ∨ q ∈ l := by
  intro l
  induction l with
  | nil => intro q h; simpa [pyDictInsert] using h
  | cons p rest ih =>
    intro q h
    rw [pyDictInsert] at h
    split at h
    · rename_i hk
      rcases List.mem_cons.mp h with h1 | h2
      · exact .inl (by rw [h1, hk])
      · exact .inr (List.mem_cons_of_mem _ h2)
    · rcases List.mem_cons.mp h with h1 | h2
      · exact .inr (h1 ▸ List.mem_cons_self _ _)
      · rcases ih q h2 with h3 | h4
        · exact .inl h3
        · exact .inr (List.mem_cons_of_mem _ h4)

theorem length_pyDictInsert_le {α : Type} {k : String} {v : α} :
    ∀ l : List (String × α), (pyDictInsert k v l).length ≤ l.length + 1 := by
  intro l
  induction l with
  | nil => simp [pyDictInsert]
  | cons p rest ih =>
    rw [pyDictInsert]
    split
    · simp
    · simp only [List.length_cons]
      omega

theorem pyDictInsert_not_mem {α : Type} {k : String} {v : α} :
    ∀ l : List (String × α), k ∉ l.map Prod.fst →
      pyDictInsert k v l = l ++ [(k, v)] := by
  intro l
  induction l with
  | nil => intro _; rfl
  | cons p rest ih =>
    intro h
    simp only [List.map_cons, List.mem_cons, not_or] at h
    rw [pyDictInsert, if_neg (fun hq => h.1 hq.symm), ih h.2]
    simp

theorem mem_foldl_pyDictInsert {α : Type} :
    ∀ (ps : List (String × α)) (acc : List (String × α)) (q : String × α),
      q ∈ ps.foldl (fun acc p => pyDictInsert p.1 p.2 acc) acc →
        q ∈ acc ∨ q ∈ ps := by
  intro ps
  induction ps with
  | nil => intro acc q h; exact .inl h
  | cons p rest ih =>
    intro acc q h
    rcases ih _ q h with h1 | h2
    · rcases mem_pyDictInsert _ _ h1 with h3 | h4
      · exact .inr (by rw [h3]; exact List.mem_cons_self _ _)
      · exact .inl h4
    · exact .inr (List.mem_cons_of_mem _ h2)

theorem mem_pyDictOfList {α : Type} {ps : List (String × α)} {q : String × α}
    (h : q ∈ pyDictOfList ps) : q ∈ ps := by
  rcases mem_foldl_pyDictInsert ps [] q h with h1 | h2
  · simp at h1
  · exact h2

theorem length_foldl_pyDictInsert_le {α : Type} :
    ∀ (ps : List (String × α)) (acc : List (String × α)),
      (ps.foldl (fun acc p => pyDictInsert p.1 p.2 acc) acc).length ≤
        acc.length + ps.length := by
  intro ps
  induction ps with
  | nil => intro acc; simp
  | cons p rest ih =>
    intro acc
    calc (rest.foldl (fun acc p => pyDictInsert p.1 p.2 acc)
            (pyDictInsert p.1 p.2 acc)).length ≤
          (pyDictInsert p.1 p.2 acc).length + rest.length := ih _
      _ ≤ (acc.length + 1) + rest.length :=
          Nat.add_le_add_right (length_pyDictInsert_le acc) _
      _ = acc.length + (p :: rest).length := by simp; omega

theorem length_pyDictOfList_le {α : Type} (ps : List (String × α)) :
    (pyDictOfList ps).length ≤ ps.length := by
  simpa using length_foldl_pyDictInsert_le ps []

theorem foldl_pyDictInsert_eq_append {α : Type} :
    ∀ (ps : List (String × α)) (acc : List (String × α)),
      (∀ k ∈ ps.map Prod.fst, k ∉ acc.map Prod.fst) →
      (ps.map Prod.fst).Nodup →
      ps.foldl (fun acc p => pyDictInsert p.1 p.2 acc) acc = acc ++ ps := by
  intro ps
  induction ps with
  | nil => intro acc _ _; simp
  | cons p rest ih =>
    intro acc hdisj hnd
    have hp : p.1 ∉ acc.map Prod.fst :=
      hdisj p.1 (by simp)
    have hstep : pyDictInsert p.1 p.2 acc = acc ++ [p] := by
      rw [pyDictInsert_not_mem acc hp]
    simp only [List.foldl_cons, hstep]
    rw [ih (acc ++ [p]) ?_ ?_]
    · simp
    · intro k hk
      simp only [List.map_append, List.mem_append, List.map_cons, not_or]
      refine ⟨hdisj k (by simp [hk]), ?_⟩
      simp only [List.map_cons, List.nodup_cons] at hnd
      intro hcontra
      simp only [List.map_cons, List.map_nil, List.mem_cons,
        List.not_mem_nil, or_false] at hcontra
      exact hnd.1 (hcontra ▸ hk)
    · simp only [List.map_cons, List.nodup_cons] at hnd
      exact hnd.2

theorem pyDictOfList_eq_self {α : Type} {ps : List (String × α)}
    (h : (ps.map Prod.fst).Nodup) : pyDictOfList ps = ps := by
  simpa using foldl_pyDictInsert_eq_append ps [] (by simp) h

theorem length_pyDictOfList_nodup {α : Type} {ps : List (String × α)}
    (h : (ps.map Prod.fst).Nodup) : (pyDictOfList ps).length = ps.length := by
  rw [pyDictOfList_eq_self h]

theorem sum_map_eq_length_mul {α : Type} (l : List α) (f : α → Nat) (n : Nat)
    (h : ∀ x ∈ l, f x = n) : (l.map f).sum = l.length * n := by
  induction l with
  | nil => simp
  | cons x rest ih =>
    rw [List.map_cons, List.sum_cons, h x (List.mem_cons_self _ _),
      ih (fun y hy => h y (List.mem_cons_of_mem _ hy))]
    simp [List.length_cons, Nat.succ_mul]
    omega

end A2A

namespace A2A.DeployTo

/-! ## Structural facts about the deploy_to fan-out -/

theorem deployToCluster_inv (w : World) (cluster : Cluster)
    (filename resourceType resourceName image : String)
    (clusterImageMap : List (String × String)) (targetNamespaces : List String)
    (kubeconfig apiVersion : String) :
    ((deployToCluster w cluster filename resourceType resourceName image
        clusterImageMap targetNamespaces kubeconfig apiVersion).1.namespacesSucceeded +
      (deployToCluster w cluster filename resourceType resourceName image
        clusterImageMap targetNamespaces kubeconfig apiVersion).1.namespacesFailed =
      (deployToCluster w cluster filename resourceType resourceName image
        clusterImageMap targetNamespaces kubeconfig apiVersion).1.namespacesTotal) ∧
    ((deployToCluster w cluster filename resourceType resourceName image
        clusterImageMap targetNamespaces kubeconfig apiVersion).1.status = "success" ↔
      0 < (deployToCluster w cluster filename resourceType resourceName image
        clusterImageMap targetNamespaces kubeconfig apiVersion).1.namespacesSucceeded) := by
  have hle := List.countP_le_length
    (p := fun (r : String × UnitOutcome) => r.2.status == "success")
    (l := pyDictOfList (targetNamespaces.map fun nsName =>
      (nsName, deployUnitOutcome w cluster filename resourceType resourceName
        image clusterImageMap kubeconfig nsName)))
  constructor
  · simp only [deployToCluster]
    omega
  · simp only [deployToCluster]
    split
    · rename_i hpos
      simpa using hpos
    · rename_i hneg
      exact ⟨fun hh => absurd hh (by decide), fun hp => absurd hp hneg⟩

theorem deployToClusters_results_length_le (w : World) (clusters : List Cluster)
    (filename resourceType resourceName image : String)
    (clusterImages : List String) (targetNamespaces : List String)
    (kubeconfig apiVersion : String) :
    (deployToClusters w clusters filename resourceType resourceName image
      clusterImages targetNamespaces kubeconfig apiVersion).1.length ≤
      clusters.length := by
  simp only [deployToClusters]
  calc (pyDictOfList _).length ≤ _ := length_pyDictOfList_le _
    _ = clusters.length := List.length_map _ _

theorem deployToClusters_mem_inv (w : World) (clusters : List Cluster)
    (filename resourceType resourceName image : String)
    (clusterImages : List String) (targetNamespaces : List String)
    (kubeconfig apiVersion : String) :
    ∀ pr ∈ (deployToClusters w clusters filename resourceType resourceName
        image clusterImages targetNamespaces kubeconfig apiVersion).1,
      pr.2.namespacesSucceeded + pr.2.namespacesFailed = pr.2.namespacesTotal ∧
        (pr.2.status = "success" ↔ 0 < pr.2.namespacesSucceeded) := by
  intro pr hpr
  simp only [deployToClusters] at hpr
  have hmem := mem_pyDictOfList hpr
  rcases List.mem_map.mp hmem with ⟨c, _, hc⟩
  have h2 : pr.2 = (deployToCluster w c filename resourceType resourceName
      image (parseClusterImages clusterImages) targetNamespaces kubeconfig
      apiVersion).1 := by rw [← hc]
  rw [h2]
  exact deployToCluster_inv w c filename resourceType resourceName image
    (parseClusterImages clusterImages) targetNamespaces kubeconfig apiVersion

end A2A.DeployTo

namespace A2A

open DeployTo in
/-- C1: for every fan-out execution of `deploy_to`, each per-cluster outcome
satisfies `namespaces_succeeded + namespaces_failed = namespaces_total` with
cluster status `"success"` iff `namespaces_succeeded > 0`, and the overall
envelope satisfies `clusters_succeeded + clusters_failed = clusters_selected`
with overall status `"success"` iff `clusters_succeeded > 0`. -/
theorem deployTo_aggregation_invariant (w : World) (p : DeployParams)
    (resp : DeployResponse) (tr : Trace)
    (h : DeployTo.execute w p = (resp, tr)) (hd : resp.isDeployed = true) :
    resp.succeededOf + resp.failedOf = resp.selectedOf ∧
    (resp.statusOf = "success" ↔ 0 < resp.succeededOf) ∧
    ∀ pr ∈ resp.resultsOf,
      pr.2.namespacesSucceeded + pr.2.namespacesFailed = pr.2.namespacesTotal ∧
      (pr.2.status = "success" ↔ 0 < pr.2.namespacesSucceeded) := by
  simp only [DeployTo.execute, DeployTo.listAvailableClusters] at h
  repeat' split at h
  all_goals injection h with h1 h2
  all_goals subst h1
  all_goals simp [DeployResponse.isDeployed] at hd
  · rename_i hpos
    refine ⟨?_, ?_, ?_⟩
    · simp only [DeployResponse.succeededOf, DeployResponse.failedOf,
        DeployResponse.selectedOf]
      exact Nat.add_sub_cancel' (le_trans (List.countP_le_length _)
        (deployToClusters_results_length_le _ _ _ _ _ _ _ _ _ _))
    · simp only [DeployResponse.statusOf, DeployResponse.succeededOf]
      exact ⟨fun _ => hpos, fun _ => trivial⟩
    · simp only [DeployResponse.resultsOf]
      exact deployToClusters_mem_inv _ _ _ _ _ _ _ _ _ _
  · rename_i hneg
    refine ⟨?_, ?_, ?_⟩
    · simp only [DeployResponse.succeededOf, DeployResponse.failedOf,
        DeployResponse.selectedOf]
      exact Nat.add_sub_cancel' (le_trans (List.countP_le_length _)
        (deployToClusters_results_length_le _ _ _ _ _ _ _ _ _ _))
    · simp only [DeployResponse.statusOf, DeployResponse.succeededOf]
      exact ⟨fun hh => absurd hh (by decide), fun hp => absurd hp hneg⟩
    · simp only [DeployResponse.resultsOf]
      exact deployToClusters_mem_inv _ _ _ _ _ _ _ _ _ _

end A2A

namespace A2A

/-- C1 witness: the aggregation invariant evaluated on a concrete two-cluster
run in which `c1` succeeds and `c2` fails. -/
theorem deployTo_aggregation_invariant_witness :
    (DeployTo.execute wC1 pC1).1.succeededOf +
        (DeployTo.execute wC1 pC1).1.failedOf =
      (DeployTo.execute wC1 pC1).1.selectedOf ∧
    ((DeployTo.execute wC1 pC1).1.statusOf = "success" ↔
      0 < (DeployTo.execute wC1 pC1).1.succeededOf) ∧
    ∀ pr ∈ (DeployTo.execute wC1 pC1).1.resultsOf,
      pr.2.namespacesSucceeded + pr.2.namespacesFailed = pr.2.namespacesTotal ∧
      (pr.2.status = "success" ↔ 0 < pr.2.namespacesSucceeded) :=
  deployTo_aggregation_invariant wC1 pC1 _ _ rfl (by decide)

/-- C9: calling `deploy_to`'s `execute` with `list_clusters` false and both
`target_clusters` and `cluster_labels` empty returns the
`Must specify either target_clusters or cluster_labels` error envelope
before any external command is launched (the trace is empty), in every
environment. -/
theorem deployTo_requires_selector (w : World) (p : DeployTo.DeployParams)
    (h1 : p.listClusters = false) (h2 : p.targetClusters = [])
    (h3 : p.clusterLabels = []) :
    DeployTo.execute w p =
      (.err "Must specify either target_clusters or cluster_labels", []) := by
  simp [DeployTo.execute, h1, h2, h3]

/-- C9 witness: the default parameter set in the all-succeeding environment. -/
theorem deployTo_requires_selector_witness :
    DeployTo.execute wEmpty {} =
      (.err "Must specify either target_clusters or cluster_labels", []) :=
  deployTo_requires_selector wEmpty {} rfl rfl rfl

/-- C6: the external process runner returns the launch record unchanged on
success, and converts any launch exception into
`{returncode: 1, stdout: "", stderr: str(e)}` instead of raising. -/
theorem runCommand_never_raises (w : World) (cmd : List String) :
    (∀ r, w.launch cmd = .ok r → runCommand w cmd = r) ∧
    (∀ e, w.launch cmd = .error e →
      runCommand w cmd = { returncode := 1, stdout := "", stderr := e }) := by
  constructor
  · intro r hr
    simp [runCommand, hr]
  · intro e he
    simp [runCommand, he]

/-- C6 witness: in an environment whose every launch raises `FileNotFoundError`,
the runner reports `returncode 1`, empty stdout, and the message in stderr. -/
theorem runCommand_never_raises_witness :
    runCommand wFail ["kubectl", "version"] =
      { returncode := 1, stdout := "",
        stderr := "[Errno 2] No such file or directory: \x27kubectl\x27" } :=
  (runCommand_never_raises wFail ["kubectl", "version"]).2 _ rfl

end A2A

namespace A2A.DeployTo

theorem deployToCluster_trace_length (w : World) (cluster : Cluster)
    (filename resourceType resourceName image : String)
    (clusterImageMap : List (String × String)) (targetNamespaces : List String)
    (kubeconfig apiVersion : String) :
    (deployToCluster w cluster filename resourceType resourceName image
      clusterImageMap targetNamespaces kubeconfig apiVersion).2.length =
      targetNamespaces.length := by
  simp [deployToCluster]

theorem deployToCluster_nsResults_length (w : World) (cluster : Cluster)
    (filename resourceType resourceName image : String)
    (clusterImageMap : List (String × String)) (targetNamespaces : List String)
    (kubeconfig apiVersion : String) (hn : targetNamespaces.Nodup) :
    (deployToCluster w cluster filename resourceType resourceName image
      clusterImageMap targetNamespaces kubeconfig apiVersion).1.namespaceResults.length =
      targetNamespaces.length := by
  simp only [deployToCluster]
  rw [length_pyDictOfList_nodup, List.length_map]
  simpa [List.map_map, Function.comp_def] using hn

end A2A.DeployTo

namespace A2A

/-- C2 counterexample: a concrete `deploy_to` execution with one selected
cluster and the resolved namespace list `["app", "app"]` (two entries)
produces one unit outcome in the result tree, not `|C| × |N| = 2`: the
per-namespace dictionary collapses duplicate namespace names. -/
theorem deployTo_dispatch_count_counterexample :
    (DeployTo.execute wC2 pC2).1.selectedOf = 1 ∧
    (DeployTo.execute wC2 pC2).1.planNamespacesOf.length = 2 ∧
    unitOutcomeCount (DeployTo.execute wC2 pC2).1.resultsOf ≠ 1 * 2 := by
  decide

open DeployTo in
/-- C2 (amended): the fan-out dispatcher launches the unit of work exactly
`|C| × |N|` times (one launch per list-position pair, regardless of
duplicates), and when the cluster names and the namespace list are
duplicate-free the returned result tree contains exactly `|C| × |N|` unit
outcomes, however many units fail. -/
theorem deployTo_dispatch_counts (w : World) (clusters : List Cluster)
    (filename resourceType resourceName image : String)
    (clusterImages : List String) (targetNamespaces : List String)
    (kubeconfig apiVersion : String)
    (hc : (clusters.map Cluster.name).Nodup) (hn : targetNamespaces.Nodup) :
    (deployToClusters w clusters filename resourceType resourceName image
        clusterImages targetNamespaces kubeconfig apiVersion).2.length =
      clusters.length * targetNamespaces.length ∧
    unitOutcomeCount (deployToClusters w clusters filename resourceType
        resourceName image clusterImages targetNamespaces kubeconfig
        apiVersion).1 =
      clusters.length * targetNamespaces.length := by
  constructor
  · simp only [deployToClusters]
    rw [List.length_flatten, List.map_map]
    exact sum_map_eq_length_mul clusters _ targetNamespaces.length
      (fun c _ => deployToCluster_trace_length w c filename resourceType
        resourceName image (parseClusterImages clusterImages)
        targetNamespaces kubeconfig apiVersion)
  · simp only [deployToClusters, unitOutcomeCount]
    rw [pyDictOfList_eq_self (by simpa [List.map_map, Function.comp_def] using hc),
      List.map_map]
    exact sum_map_eq_length_mul clusters _ targetNamespaces.length
      (fun c _ => deployToCluster_nsResults_length w c filename resourceType
        resourceName image (parseClusterImages clusterImages)
        targetNamespaces kubeconfig apiVersion hn)

open DeployTo in
/-- C2 witness: the amended dispatch-count theorem evaluated on one cluster
and two distinct namespaces. -/
theorem deployTo_dispatch_counts_witness :
    (deployToClusters wC2 [⟨"c1", "c1", "Ready"⟩] "app.yaml" "" "" "" []
        ["a", "b"] "" "").2.length = 1 * 2 ∧
    unitOutcomeCount (deployToClusters wC2 [⟨"c1", "c1", "Ready"⟩] "app.yaml"
        "" "" "" [] ["a", "b"] "" "").1 = 1 * 2 :=
  deployTo_dispatch_counts wC2 [⟨"c1", "c1", "Ready"⟩] "app.yaml" "" "" "" []
    ["a", "b"] "" "" (by decide) (by decide)

end A2A

namespace A2A.NamespaceUtils

theorem nsUtils_probeContexts_ready (w : World) (kubeconfig : String) :
    ∀ l : List String, ∀ c ∈ (probeContexts w kubeconfig l).1,
      c.status = "Ready" := by
  intro l
  induction l with
  | nil => intro c hc; simp [probeContexts] at hc
  | cons ctx rest ih =>
    intro c hc
    simp only [probeContexts] at hc
    split at hc
    · exact ih c hc
    · split at hc
      · exact ih c hc
      · split at hc
        · rcases List.mem_cons.mp hc with h1 | h2
          · rw [h1]
          · exact ih c h2
        · exact ih c hc

theorem nsUtils_discoverClusters_ready (w : World) (kubeconfig : String) :
    ∀ c ∈ (discoverClusters w kubeconfig).1, c.status = "Ready" := by
  intro c hc
  simp only [discoverClusters] at hc
  split at hc
  · simp at hc
  · exact nsUtils_probeContexts_ready w kubeconfig _ c hc

end A2A.NamespaceUtils

namespace A2A.Gvrc

theorem gvrc_probeContexts_ready (w : World) (kubeconfig : String) :
    ∀ l : List String, ∀ c ∈ (probeContexts w kubeconfig l).1,
      c.status = "Ready" := by
  intro l
  induction l with
  | nil => intro c hc; simp [probeContexts] at hc
  | cons ctx rest ih =>
    intro c hc
    simp only [probeContexts] at hc
    split at hc
    · exact ih c hc
    · split at hc
      · exact ih c hc
      · split at hc
        · rcases List.mem_cons.mp hc with h1 | h2
          · rw [h1]
          · exact ih c h2
        · exact ih c hc

theorem gvrc_discoverClusters_ready (w : World) (kubeconfig : String) :
    ∀ c ∈ (discoverClusters w kubeconfig).1, c.status = "Ready" := by
  intro c hc
  simp only [discoverClusters] at hc
  split at hc
  · simp at hc
  · exact gvrc_probeContexts_ready w kubeconfig _ c hc

end A2A.Gvrc

namespace A2A.MultiCreate

theorem mcreate_probeContexts_ready (w : World) (kubeconfig : String) :
    ∀ l : List String, ∀ c ∈ (probeContexts w kubeconfig l).1,
      c.status = "Ready" := by
  intro l
  induction l with
  | nil => intro c hc; simp [probeContexts] at hc
  | cons ctx rest ih =>
    intro c hc
    simp only [probeContexts] at hc
    split at hc
    · exact ih c hc
    · split at hc
      · exact ih c hc
      · split at hc
        · rcases List.mem_cons.mp hc with h1 | h2
          · rw [h1]
          · exact ih c h2
        · exact ih c hc

theorem mcreate_discoverClusters_ready (w : World) (kubeconfig : String) :
    ∀ c ∈ (discoverClusters w kubeconfig).1, c.status = "Ready" := by
  intro c hc
  simp only [discoverClusters] at hc
  split at hc
  · simp at hc
  · exact mcreate_probeContexts_ready w kubeconfig _ c hc

end A2A.MultiCreate

namespace A2A.DeployTo

theorem probeContexts_keeps_unreachable (w : World) (kubeconfig : String) :
    ∀ (l : List String) (ctx : String), ctx ∈ l → pyStrip ctx ≠ "" →
      isWdsCluster ctx = false →
      (runCommand w (clusterInfoCmd ctx kubeconfig)).returncode ≠ 0 →
      (⟨ctx, ctx, "Unreachable"⟩ : Cluster) ∈ (probeContexts w kubeconfig l).1 := by
  intro l
  induction l with
  | nil => intro ctx h; simp at h
  | cons c rest ih =>
    intro ctx hmem hstrip hwds hrc
    simp only [probeContexts]
    rcases List.mem_cons.mp hmem with h1 | h2
    · subst h1
      rw [if_neg (by simpa using hstrip), if_neg (by simp [hwds])]
      rw [if_neg hrc]
      exact List.mem_cons_self _ _
    · split
      · exact ih ctx h2 hstrip hwds hrc
      · split
        · exact ih ctx h2 hstrip hwds hrc
        · exact List.mem_cons_of_mem _ (ih ctx h2 hstrip hwds hrc)

theorem discoverClusters_keeps_unreachable (w : World) (kubeconfig : String)
    (ctx : String)
    (hr : (runCommand w (getContextsCmd kubeconfig)).returncode = 0)
    (hmem : ctx ∈ pySplitOn
      (pyStrip (runCommand w (getContextsCmd kubeconfig)).stdout) "\n")
    (hstrip : pyStrip ctx ≠ "") (hwds : isWdsCluster ctx = false)
    (hrc : (runCommand w (clusterInfoCmd ctx kubeconfig)).returncode ≠ 0) :
    (⟨ctx, ctx, "Unreachable"⟩ : Cluster) ∈ (discoverClusters w kubeconfig).1 := by
  simp only [discoverClusters]
  rw [if_neg (by simp [hr])]
  exact probeContexts_keeps_unreachable w kubeconfig _ ctx hmem hstrip hwds hrc

end A2A.DeployTo

namespace A2A

/-- C3 counterexample: in an environment with one configured context whose
reachability probe fails, the namespace-utils and GVRC discovery paths drop
the context (returning an empty list), while the deploy path keeps it with
status `Unreachable` — the opposite of the claimed per-call-site split. -/
theorem discovery_unreachable_counterexample :
    (NamespaceUtils.discoverClusters wC3 "").1 = [] ∧
    (Gvrc.discoverClusters wC3 "").1 = [] ∧
    (DeployTo.discoverClusters wC3 "").1 =
      [⟨"badctx", "badctx", "Unreachable"⟩] := by
  decide

/-- C3 (amended): the namespace, GVRC and create discovery paths drop
contexts whose reachability probe fails (every returned cluster has status
`Ready`), while the deploy discovery path keeps every non-blank, non-WDS
configured context whose probe fails, with status `Unreachable`. -/
theorem discovery_unreachable_asymmetry (w : World) (kubeconfig : String) :
    (∀ c ∈ (NamespaceUtils.discoverClusters w kubeconfig).1, c.status = "Ready") ∧
    (∀ c ∈ (Gvrc.discoverClusters w kubeconfig).1, c.status = "Ready") ∧
    (∀ c ∈ (MultiCreate.discoverClusters w kubeconfig).1, c.status = "Ready") ∧
    (∀ ctx : String,
      (runCommand w (getContextsCmd kubeconfig)).returncode = 0 →
      ctx ∈ pySplitOn
        (pyStrip (runCommand w (getContextsCmd kubeconfig)).stdout) "\n" →
      pyStrip ctx ≠ "" → DeployTo.isWdsCluster ctx = false →
      (runCommand w (clusterInfoCmd ctx kubeconfig)).returncode ≠ 0 →
      (⟨ctx, ctx, "Unreachable"⟩ : Cluster) ∈
        (DeployTo.discoverClusters w kubeconfig).1) :=
  ⟨NamespaceUtils.nsUtils_discoverClusters_ready w kubeconfig,
   Gvrc.gvrc_discoverClusters_ready w kubeconfig,
   MultiCreate.mcreate_discoverClusters_ready w kubeconfig,
   fun ctx hr hmem hstrip hwds hrc =>
     DeployTo.discoverClusters_keeps_unreachable w kubeconfig ctx hr hmem
       hstrip hwds hrc⟩

/-- C3 witness: the amended theorem applied to the concrete unreachable
context `badctx`. -/
theorem discovery_unreachable_asymmetry_witness :
    (⟨"badctx", "badctx", "Unreachable"⟩ : Cluster) ∈
      (DeployTo.discoverClusters wC3 "").1 :=
  (discovery_unreachable_asymmetry wC3 "").2.2.2 "badctx" (by decide)
    (by decide) (by decide) (by decide) (by decide)

end A2A

namespace A2A

/-- C4 counterexample: a failed unit whose error text contains
`already exists` gets the friendly message
`Resource already exists in this namespace` — not the claimed
`Resource already exists in this namespace/cluster` — and the `not found`
tier likewise reads `Namespace or resource type not found`, at both the
deploy and create call sites. -/
theorem error_classifier_counterexample :
    (DeployTo.deployUnitOutcome wC4 ⟨"c1", "c1", "Ready"⟩ "app.yaml" "" "" ""
        [] "" "default").error =
      some "Resource already exists in this namespace" ∧
    (DeployTo.deployUnitOutcome wC4 ⟨"c1", "c1", "Ready"⟩ "app.yaml" "" "" ""
        [] "" "default").error ≠
      some "Resource already exists in this namespace/cluster" ∧
    (MultiCreate.createUnitOutcome wC4 ⟨"c1", "c1", "Ready"⟩ "" "" "app.yaml"
        "" 1 0 "" "default" "none" []).error =
      some "Resource already exists in this namespace" ∧
    (MultiCreate.createUnitOutcome wC4 ⟨"c1", "c1", "Ready"⟩ "" "" "app.yaml"
        "" 1 0 "" "default" "none" []).error ≠
      some "Namespace, resource type, or cluster not accessible" := by
  decide

/-- C4 (amended): for every failed unit, both classifiers check the combined
error text in order — `already exists` yields
`Resource already exists in this namespace`, otherwise `not found` yields
`Namespace or resource type not found`, otherwise the generic
`Deployment failed: <raw>` / `Creation failed: <raw>` — and the raw output
(`stderr`, or `stdout` when `stderr` is empty) is always preserved in the
outcome's `output` field alongside the friendly message. -/
theorem error_classifier (w : World) (cluster : Cluster)
    (filename resourceType resourceName image : String)
    (clusterImageMap : List (String × String)) (kubeconfig nsName : String)
    (replicas port : Int) (dryRun : String) (labels : List (String × String)) :
    ((runCommand w (DeployTo.deployUnitCmd cluster filename resourceType
        resourceName image clusterImageMap kubeconfig nsName)).returncode ≠ 0 →
      (DeployTo.deployUnitOutcome w cluster filename resourceType resourceName
          image clusterImageMap kubeconfig nsName).status = "error" ∧
      (DeployTo.deployUnitOutcome w cluster filename resourceType resourceName
          image clusterImageMap kubeconfig nsName).output =
        (let r := runCommand w (DeployTo.deployUnitCmd cluster filename
          resourceType resourceName image clusterImageMap kubeconfig nsName)
         if r.stderr ≠ "" then r.stderr else r.stdout) ∧
      (pyContains (DeployTo.deployUnitOutcome w cluster filename resourceType
          resourceName image clusterImageMap kubeconfig nsName).output
          "already exists" = true →
        (DeployTo.deployUnitOutcome w cluster filename resourceType
          resourceName image clusterImageMap kubeconfig nsName).error =
          some "Resource already exists in this namespace") ∧
      (pyContains (DeployTo.deployUnitOutcome w cluster filename resourceType
          resourceName image clusterImageMap kubeconfig nsName).output
          "already exists" = false →
       pyContains (DeployTo.deployUnitOutcome w cluster filename resourceType
          resourceName image clusterImageMap kubeconfig nsName).output
          "not found" = true →
        (DeployTo.deployUnitOutcome w cluster filename resourceType
          resourceName image clusterImageMap kubeconfig nsName).error =
          some "Namespace or resource type not found") ∧
      (pyContains (DeployTo.deployUnitOutcome w cluster filename resourceType
          resourceName image clusterImageMap kubeconfig nsName).output
          "already exists" = false →
       pyContains (DeployTo.deployUnitOutcome w cluster filename resourceType
          resourceName image clusterImageMap kubeconfig nsName).output
          "not found" = false →
        (DeployTo.deployUnitOutcome w cluster filename resourceType
          resourceName image clusterImageMap kubeconfig nsName).error =
          some ("Deployment failed: " ++
            (DeployTo.deployUnitOutcome w cluster filename resourceType
              resourceName image clusterImageMap kubeconfig nsName).output))) ∧
    ((runCommand w (MultiCreate.createUnitCmd cluster resourceType
        resourceName filename image replicas port kubeconfig nsName dryRun
        labels)).returncode ≠ 0 →
      (MultiCreate.createUnitOutcome w cluster resourceType resourceName
          filename image replicas port kubeconfig nsName dryRun labels).status =
        "error" ∧
      (pyContains (MultiCreate.createUnitOutcome w cluster resourceType
          resourceName filename image replicas port kubeconfig nsName dryRun
          labels).output "already exists" = true →
        (MultiCreate.createUnitOutcome w cluster resourceType resourceName
          filename image replicas port kubeconfig nsName dryRun labels).error =
          some "Resource already exists in this namespace") ∧
      (pyContains (MultiCreate.createUnitOutcome w cluster resourceType
          resourceName filename image replicas port kubeconfig nsName dryRun
          labels).output "already exists" = false →
       pyContains (MultiCreate.createUnitOutcome w cluster resourceType
          resourceName filename image replicas port kubeconfig nsName dryRun
          labels).output "not found" = true →
        (MultiCreate.createUnitOutcome w cluster resourceType resourceName
          filename image replicas port kubeconfig nsName dryRun labels).error =
          some "Namespace or resource type not found") ∧
      (pyContains (MultiCreate.createUnitOutcome w cluster resourceType
          resourceName filename image replicas port kubeconfig nsName dryRun
          labels).output "already exists" = false →
       pyContains (MultiCreate.createUnitOutcome w cluster resourceType
          resourceName filename image replicas port kubeconfig nsName dryRun
          labels).output "not found" = false →
        (MultiCreate.createUnitOutcome w cluster resourceType resourceName
          filename image replicas port kubeconfig nsName dryRun labels).error =
          some ("Creation failed: " ++
            (MultiCreate.createUnitOutcome w cluster resourceType resourceName
              filename image replicas port kubeconfig nsName dryRun
              labels).output))) := by
  constructor
  · intro h
    refine ⟨?_, ?_, ?_, ?_, ?_⟩
    · simp [DeployTo.deployUnitOutcome, if_neg h]
    · simp [DeployTo.deployUnitOutcome, if_neg h]
    · intro hae
      simp [DeployTo.deployUnitOutcome, if_neg h] at hae ⊢
      simp [hae]
    · intro hae hnf
      simp [DeployTo.deployUnitOutcome, if_neg h] at hae hnf ⊢
      simp [hae, hnf]
    · intro hae hnf
      simp [DeployTo.deployUnitOutcome, if_neg h] at hae hnf ⊢
      simp [hae, hnf]
  · intro h
    refine ⟨?_, ?_, ?_, ?_⟩
    · simp [MultiCreate.createUnitOutcome, if_neg h]
    · intro hae
      simp [MultiCreate.createUnitOutcome, if_neg h] at hae ⊢
      simp [hae]
    · intro hae hnf
      simp [MultiCreate.createUnitOutcome, if_neg h] at hae hnf ⊢
      simp [hae, hnf]
    · intro hae hnf
      simp [MultiCreate.createUnitOutcome, if_neg h] at hae hnf ⊢
      simp [hae, hnf]

/-- C4 witness: the amended classifier evaluated on a concrete
`already exists` failure at both call sites. -/
theorem error_classifier_witness :
    (DeployTo.deployUnitOutcome wC4 ⟨"c1", "c1", "Ready"⟩ "app.yaml" "" "" ""
        [] "" "default").status = "error" ∧
    (MultiCreate.createUnitOutcome wC4 ⟨"c1", "c1", "Ready"⟩ "" "" "app.yaml"
        "" 1 0 "" "default" "none" []).status = "error" :=
  ⟨((error_classifier wC4 ⟨"c1", "c1", "Ready"⟩ "app.yaml" "" "" "" [] ""
      "default" 1 0 "none" []).1 (by decide)).1,
   ((error_classifier wC4 ⟨"c1", "c1", "Ready"⟩ "app.yaml" "" "" "" [] ""
      "default" 1 0 "none" []).2 (by decide)).1⟩

end A2A

namespace A2A.DeployTo

theorem deploy_probeContexts_no_wds (w : World) (kubeconfig : String) :
    ∀ l : List String, ∀ c ∈ (probeContexts w kubeconfig l).1,
      isWdsCluster c.name = false := by
  intro l
  induction l with
  | nil => intro c hc; simp [probeContexts] at hc
  | cons ctx rest ih =>
    intro c hc
    simp only [probeContexts] at hc
    split at hc
    · exact ih c hc
    · split at hc
      · exact ih c hc
      · rcases List.mem_cons.mp hc with h1 | h2
        · rename_i hnw
          rw [h1]
          simpa using hnw
        · exact ih c h2

theorem deploy_discoverClusters_no_wds (w : World) (kubeconfig : String) :
    ∀ c ∈ (discoverClusters w kubeconfig).1, isWdsCluster c.name = false := by
  intro c hc
  simp only [discoverClusters] at hc
  split at hc
  · simp at hc
  · exact deploy_probeContexts_no_wds w kubeconfig _ c hc

end A2A.DeployTo

namespace A2A.MultiCreate

theorem mcreate_probeContexts_no_wds (w : World) (kubeconfig : String) :
    ∀ l : List String, ∀ c ∈ (probeContexts w kubeconfig l).1,
      isWdsCluster c.name = false := by
  intro l
  induction l with
  | nil => intro c hc; simp [probeContexts] at hc
  | cons ctx rest ih =>
    intro c hc
    simp only [probeContexts] at hc
    split at hc
    · exact ih c hc
    · split at hc
      · exact ih c hc
      · split at hc
        · rcases List.mem_cons.mp hc with h1 | h2
          · rename_i hnw _
            rw [h1]
            simpa using hnw
          · exact ih c h2
        · exact ih c hc

theorem mcreate_discoverClusters_no_wds (w : World) (kubeconfig : String) :
    ∀ c ∈ (discoverClusters w kubeconfig).1, isWdsCluster c.name = false := by
  intro c hc
  simp only [discoverClusters] at hc
  split at hc
  · simp at hc
  · exact mcreate_probeContexts_no_wds w kubeconfig _ c hc

end A2A.MultiCreate

namespace A2A.NamespaceUtils

theorem nsUtils_probeContexts_no_wds (w : World) (kubeconfig : String) :
    ∀ l : List String, ∀ c ∈ (probeContexts w kubeconfig l).1,
      isWdsCluster c.name = false := by
  intro l
  induction l with
  | nil => intro c hc; simp [probeContexts] at hc
  | cons ctx rest ih =>
    intro c hc
    simp only [probeContexts] at hc
    split at hc
    · exact ih c hc
    · split at hc
      · exact ih c hc
      · split at hc
        · rcases List.mem_cons.mp hc with h1 | h2
          · rename_i hnw _
            rw [h1]
            simpa using hnw
          · exact ih c h2
        · exact ih c hc

theorem nsUtils_discoverClusters_no_wds (w : World) (kubeconfig : String) :
    ∀ c ∈ (discoverClusters w kubeconfig).1, isWdsCluster c.name = false := by
  intro c hc
  simp only [discoverClusters] at hc
  split at hc
  · simp at hc
  · exact nsUtils_probeContexts_no_wds w kubeconfig _ c hc

end A2A.NamespaceUtils

namespace A2A.Gvrc

theorem gvrc_probeContexts_no_wds (w : World) (kubeconfig : String) :
    ∀ l : List String, ∀ c ∈ (probeContexts w kubeconfig l).1,
      isWdsCluster c.name = false := by
  intro l
  induction l with
  | nil => intro c hc; simp [probeContexts] at hc
  | cons ctx rest ih =>
    intro c hc
    simp only [probeContexts] at hc
    split at hc
    · exact ih c hc
    · split at hc
      · exact ih c hc
      · split at hc
        · rcases List.mem_cons.mp hc with h1 | h2
          · rename_i hnw _
            rw [h1]
            simpa using hnw
          · exact ih c h2
        · exact ih c hc

theorem gvrc_discoverClusters_no_wds (w : World) (kubeconfig : String) :
    ∀ c ∈ (discoverClusters w kubeconfig).1, isWdsCluster c.name = false := by
  intro c hc
  simp only [discoverClusters] at hc
  split at hc
  · simp at hc
  · exact gvrc_probeContexts_no_wds w kubeconfig _ c hc

end A2A.Gvrc

namespace A2A.KsMgmt

theorem classifyKubestellarSpace_name (w : World) (context kubeconfig : String) :
    (classifyKubestellarSpace w context kubeconfig).1.name = context := rfl

theorem topoLoop_skips_wds (w : World) (kubeconfig : String) (ctx : String)
    (hw : (classifyKubestellarSpace w ctx kubeconfig).1.type = "wds") :
    ∀ l : List String,
      ctx ∉ ((topoLoop w kubeconfig false l).1.map SpaceInfo.name) := by
  intro l
  induction l with
  | nil => simp [topoLoop]
  | cons c rest ih =>
    simp only [topoLoop]
    split
    · exact ih
    · by_cases hceq : c = ctx
      · subst hceq
        rw [if_pos ⟨hw, by simp⟩]
        exact ih
      · split
        · exact ih
        · split
          · simp only [List.map_cons, List.mem_cons, not_or]
            refine ⟨?_, ih⟩
            intro hcontra
            exact hceq (by
              have hname : ({ (classifyKubestellarSpace w c kubeconfig).1 with
                  status := some "Ready", context := some c } :
                    SpaceInfo).name = c :=
                classifyKubestellarSpace_name w c kubeconfig
              rw [hname] at hcontra
              exact hcontra.symm)
          · exact ih

theorem topoLoop_includes_with_flag (w : World) (kubeconfig : String)
    (ctx : String) (hstrip : pyStrip ctx ≠ "")
    (hprobe : (runCommand w (clusterInfoCmd ctx kubeconfig)).returncode = 0) :
    ∀ l : List String, ctx ∈ l →
      ctx ∈ ((topoLoop w kubeconfig true l).1.map SpaceInfo.name) := by
  intro l
  induction l with
  | nil => intro h; simp at h
  | cons c rest ih =>
    intro hmem
    simp only [topoLoop]
    rcases List.mem_cons.mp hmem with h1 | h2
    · subst h1
      rw [if_neg (by simpa using hstrip), if_neg (by simp), if_pos hprobe]
      simp only [List.map_cons, List.mem_cons]
      exact .inl (classifyKubestellarSpace_name w ctx kubeconfig).symm
    · split
      · exact ih h2
      · rw [if_neg (by simp)]
        split
        · simp only [List.map_cons, List.mem_cons]
          exact .inr (ih h2)
        · exact ih h2

theorem topology_wds_flag (w : World) (kubeconfig : String) (ctx : String)
    (hr : (runCommand w (getContextsCmd kubeconfig)).returncode = 0)
    (hmem : ctx ∈ pySplitOn
      (pyStrip (runCommand w (getContextsCmd kubeconfig)).stdout) "\n")
    (hstrip : pyStrip ctx ≠ "")
    (hw : (classifyKubestellarSpace w ctx kubeconfig).1.type = "wds")
    (hprobe : (runCommand w (clusterInfoCmd ctx kubeconfig)).returncode = 0) :
    ctx ∉ ((discoverKubestellarTopology w kubeconfig false).1.map SpaceInfo.name) ∧
    ctx ∈ ((discoverKubestellarTopology w kubeconfig true).1.map SpaceInfo.name) := by
  constructor
  · simp only [discoverKubestellarTopology]
    rw [if_neg (by simp [hr])]
    exact topoLoop_skips_wds w kubeconfig ctx hw _
  · simp only [discoverKubestellarTopology]
    rw [if_neg (by simp [hr])]
    exact topoLoop_includes_with_flag w kubeconfig ctx hstrip hprobe _ hmem

end A2A.KsMgmt

namespace A2A

/-- C5 counterexample: the context `x_wds_y` matches the claimed
DescriptionSpace naming heuristic (it contains `_wds_`), yet the
KubeStellar topology discovery includes it in the returned list with the
include flag at its default `false`: that path's own naming classifier
checks only the `wds` prefix and `-wds-` infix. -/
theorem wds_exclusion_counterexample :
    DeployTo.isWdsCluster "x_wds_y" = true ∧
    ((KsMgmt.discoverKubestellarTopology wC5 "" false).1.map
      KsMgmt.SpaceInfo.name) = ["x_wds_y"] := by
  decide

/-- C5 (amended): the deploy, create, namespace and GVRC discovery paths
exclude every context matching the full naming heuristic (`wds` prefix,
`-wds-`, `_wds_`, case-insensitive) unconditionally — they expose no
include flag — while the KubeStellar topology discovery skips exactly the
contexts its classifier types `wds` when `include_wds` is false and
includes them when it is true. -/
theorem wds_exclusion_per_site (w : World) (kubeconfig : String) :
    (∀ c ∈ (DeployTo.discoverClusters w kubeconfig).1,
      DeployTo.isWdsCluster c.name = false) ∧
    (∀ c ∈ (MultiCreate.discoverClusters w kubeconfig).1,
      MultiCreate.isWdsCluster c.name = false) ∧
    (∀ c ∈ (NamespaceUtils.discoverClusters w kubeconfig).1,
      NamespaceUtils.isWdsCluster c.name = false) ∧
    (∀ c ∈ (Gvrc.discoverClusters w kubeconfig).1,
      Gvrc.isWdsCluster c.name = false) ∧
    (∀ ctx : String,
      (runCommand w (getContextsCmd kubeconfig)).returncode = 0 →
      ctx ∈ pySplitOn
        (pyStrip (runCommand w (getContextsCmd kubeconfig)).stdout) "\n" →
      pyStrip ctx ≠ "" →
      (KsMgmt.classifyKubestellarSpace w ctx kubeconfig).1.type = "wds" →
      (runCommand w (clusterInfoCmd ctx kubeconfig)).returncode = 0 →
      ctx ∉ ((KsMgmt.discoverKubestellarTopology w kubeconfig false).1.map
        KsMgmt.SpaceInfo.name) ∧
      ctx ∈ ((KsMgmt.discoverKubestellarTopology w kubeconfig true).1.map
        KsMgmt.SpaceInfo.name)) :=
  ⟨DeployTo.deploy_discoverClusters_no_wds w kubeconfig,
   MultiCreate.mcreate_discoverClusters_no_wds w kubeconfig,
   NamespaceUtils.nsUtils_discoverClusters_no_wds w kubeconfig,
   Gvrc.gvrc_discoverClusters_no_wds w kubeconfig,
   fun ctx hr hmem hstrip hw hprobe =>
     KsMgmt.topology_wds_flag w kubeconfig ctx hr hmem hstrip hw hprobe⟩

/-- C5 witness: the flag behaviour of topology discovery on the concrete
WDS-classified context `wds1`. -/
theorem wds_exclusion_per_site_witness :
    "wds1" ∉ ((KsMgmt.discoverKubestellarTopology wC5b "" false).1.map
      KsMgmt.SpaceInfo.name) ∧
    "wds1" ∈ ((KsMgmt.discoverKubestellarTopology wC5b "" true).1.map
      KsMgmt.SpaceInfo.name) :=
  (wds_exclusion_per_site wC5b "").2.2.2.2 "wds1" (by decide) (by decide)
    (by decide) (by decide) (by decide)

end A2A

namespace A2A.Logs

theorem streamingCount_replicate_waiting (n : Nat) :
    streamingCount (List.replicate n .waiting) = 0 := by
  induction n with
  | zero => rfl
  | succ k ih =>
    simp only [List.replicate, streamingCount, List.countP_cons] at ih ⊢
    simpa [StreamPhase.isStreaming] using ih

theorem followStep_preserves_bound {m : Nat} {s t : List StreamPhase}
    (hstep : FollowStep m s t) (hs : streamingCount s ≤ m) :
    streamingCount t ≤ m := by
  cases hstep with
  | start pre post hfree =>
    simp [streamingCount, List.countP_append, List.countP_cons,
      StreamPhase.isStreaming] at hfree hs ⊢
    omega
  | finish pre post =>
    simp [streamingCount, List.countP_append, List.countP_cons,
      StreamPhase.isStreaming] at hs ⊢
    omega

end A2A.Logs

namespace A2A

/-- C7: in the semaphore-governed interleaving semantics of the follow-mode
log follower, every state reachable from `n` waiting per-cluster tasks has
at most `max_log_requests` streaming subprocesses (waiting tasks queue
until a streaming task releases its permit); the cap's default is 10. -/
theorem logs_follow_concurrency_bound (maxRequests n : Nat)
    (s : List Logs.StreamPhase) (h : Logs.FollowReachable maxRequests n s) :
    Logs.streamingCount s ≤ maxRequests ∧ Logs.defaultMaxLogRequests = 10 := by
  constructor
  · induction h with
    | refl =>
      rw [Logs.streamingCount_replicate_waiting n]
      exact Nat.zero_le _
    | tail hab hstep ih => exact Logs.followStep_preserves_bound hstep ih
  · rfl

/-- C7 witness: the bound evaluated in a concrete reachable state — two
tasks, one streaming after acquiring a permit — under a cap of 2. -/
theorem logs_follow_concurrency_bound_witness :
    Logs.streamingCount [Logs.StreamPhase.streaming, Logs.StreamPhase.waiting] ≤ 2 ∧
    Logs.defaultMaxLogRequests = 10 :=
  logs_follow_concurrency_bound 2 2
    [Logs.StreamPhase.streaming, Logs.StreamPhase.waiting]
    (Relation.ReflTransGen.single
      (Logs.FollowStep.start [] [Logs.StreamPhase.waiting] (by decide)))

end A2A

namespace A2A.Helm

theorem probeContexts_trace (w : World) (kubeconfig : String) :
    ∀ l : List String, ∀ cmd ∈ (probeContexts w kubeconfig l).2,
      ∃ ctx, cmd = clusterInfoCmd ctx kubeconfig := by
  intro l
  induction l with
  | nil => intro cmd h; simp [probeContexts] at h
  | cons ctx rest ih =>
    intro cmd h
    simp only [probeContexts] at h
    split at h
    · exact ih cmd h
    · split at h
      · exact ih cmd h
      · rcases List.mem_cons.mp h with h1 | h2
        · exact ⟨ctx, h1⟩
        · exact ih cmd h2

theorem discoverClusters_trace (w : World) (kubeconfig : String) :
    ∀ cmd ∈ (discoverClusters w kubeconfig).2,
      cmd = getContextsCmd kubeconfig ∨
        ∃ ctx, cmd = clusterInfoCmd ctx kubeconfig := by
  intro cmd h
  simp only [discoverClusters] at h
  split at h
  · simp at h
    exact .inl h
  · rcases List.mem_cons.mp h with h1 | h2
    · exact .inl h1
    · exact .inr (probeContexts_trace w kubeconfig _ cmd h2)

theorem resolveTargetNamespaces_trace (w : World) (cluster : Cluster)
    (allNamespaces : Bool) (namespaceSelector : String)
    (targetNamespaces : List String) (nsParam kubeconfig : String) :
    ∀ cmd ∈ (resolveTargetNamespaces w cluster allNamespaces
        namespaceSelector targetNamespaces nsParam kubeconfig).2,
      cmd = DeployTo.getNamespacesCmd cluster.context namespaceSelector
        kubeconfig := by
  intro cmd h
  simp only [resolveTargetNamespaces] at h
  split at h
  · simp at h
  · split at h
    · split at h
      · simpa using h
      · split at h
        · simpa using h
        · simpa using h
    · split at h
      · simp at h
      · simp at h

end A2A.Helm

namespace A2A

/-- C10: a `helm_deploy` execute call with `dry_run` true that passes
validation, discovers clusters and selects a non-empty set returns the
dry-run envelope with status `"success"`, and every external command it
launched is a discovery or namespace-query probe (`kubectl config ...`,
`kubectl cluster-info ...`, `kubectl get namespaces ...`): no helm
install/upgrade, no namespace creation, no binding-policy apply. -/
theorem helm_dry_run_frame (w : World) (p : Helm.HelmParams)
    (hdry : p.dryRun = true)
    (hval : Helm.validateInputs p.chartName p.chartPath p.repositoryUrl
      p.repositoryName p.operation p.releaseName = none)
    (hdisc : (Helm.discoverClusters w p.kubeconfig).1 ≠ [])
    (hsel : Helm.filterClusters (Helm.discoverClusters w p.kubeconfig).1
      p.targetClusters p.clusterLabels ≠ []) :
    (Helm.execute w p).1.isDryRun = true ∧
    (Helm.execute w p).1.statusOf = "success" ∧
    ∀ cmd ∈ (Helm.execute w p).2, cmd.headD "" = "kubectl" ∧
      (cmd.getD 1 "" = "config" ∨ cmd.getD 1 "" = "cluster-info" ∨
        (cmd.getD 1 "" = "get" ∧ cmd.getD 2 "" = "namespaces")) := by
  simp only [Helm.execute, hval]
  rw [if_neg hdisc, if_neg hsel, if_pos hdry]
  refine ⟨rfl, rfl, ?_⟩
  intro cmd hcmd
  simp only at hcmd
  rcases List.mem_append.mp hcmd with h1 | h2
  · rcases Helm.discoverClusters_trace w p.kubeconfig cmd h1 with he | ⟨ctx, he⟩
    · rw [he]
      exact ⟨rfl, .inl rfl⟩
    · rw [he]
      exact ⟨rfl, .inr (.inl rfl)⟩
  · have he := Helm.resolveTargetNamespaces_trace w _ p.allNamespaces
      p.namespaceSelector p.targetNamespaces p.nsParam p.kubeconfig cmd h2
    rw [he]
    exact ⟨rfl, .inr (.inr ⟨rfl, rfl⟩)⟩

/-- C10 witness: the dry-run frame property on a concrete dry run that
resolves namespaces with `all_namespaces`. -/
theorem helm_dry_run_frame_witness :
    (Helm.execute wC8 pC10).1.isDryRun = true ∧
    (Helm.execute wC8 pC10).1.statusOf = "success" ∧
    ∀ cmd ∈ (Helm.execute wC8 pC10).2, cmd.headD "" = "kubectl" ∧
      (cmd.getD 1 "" = "config" ∨ cmd.getD 1 "" = "cluster-info" ∨
        (cmd.getD 1 "" = "get" ∧ cmd.getD 2 "" = "namespaces")) :=
  helm_dry_run_frame wC8 pC10 rfl (by decide) (by decide) (by decide)

end A2A

namespace A2A

set_option maxHeartbeats 2000000 in
/-- C8: in every completed `helm_deploy` envelope, the sibling
`binding_policy` field is populated exactly when binding-policy creation
was requested, the operation is install or upgrade, and the multi-cluster
deployment result has status `"success"`; and whenever it is populated —
whatever the policy outcome, success or failure — the deployment's own
status is (still) `"success"`, unchanged by the policy result. -/
theorem helm_binding_policy_sibling (w : World) (p : Helm.HelmParams)
    (resp : Helm.HelmResponse) (tr : Trace)
    (h : Helm.execute w p = (resp, tr)) (hc : resp.isCompleted = true) :
    (resp.bindingPolicyOf.isSome ↔
      (p.createBindingPolicy = true ∧
        (p.operation = "install" ∨ p.operation = "upgrade") ∧
        resp.deployStatus = "success")) ∧
    (∀ bpr, resp.bindingPolicyOf = some bpr →
      resp.deployStatus = "success") := by
  simp only [Helm.execute] at h
  repeat' split at h
  all_goals injection h with h1 h2
  all_goals subst h1
  all_goals simp [Helm.HelmResponse.isCompleted] at hc
  all_goals dsimp only [Helm.HelmResponse.bindingPolicyOf,
    Helm.HelmResponse.deployStatus]
  all_goals first
    | (rename_i hcond
       obtain ⟨hc1, hc2, hc3⟩ := hcond
       exact ⟨⟨fun _ => ⟨hc1, hc2, hc3⟩, fun _ => rfl⟩, fun bpr _ => hc3⟩)
    | (rename_i hcond
       exact ⟨⟨fun habs => absurd habs (by decide),
         fun hrhs => absurd hrhs hcond⟩,
         fun bpr heq => Option.noConfusion heq⟩)

/-- C8 witness: a concrete completed install on one cluster in which the
deployment succeeds and the binding policy is created. -/
theorem helm_binding_policy_sibling_witness :
    ((Helm.execute wC8 pC8).1.bindingPolicyOf.isSome ↔
      (pC8.createBindingPolicy = true ∧
        (pC8.operation = "install" ∨ pC8.operation = "upgrade") ∧
        (Helm.execute wC8 pC8).1.deployStatus = "success")) ∧
    (∀ bpr, (Helm.execute wC8 pC8).1.bindingPolicyOf = some bpr →
      (Helm.execute wC8 pC8).1.deployStatus = "success") :=
  helm_binding_policy_sibling wC8 pC8 _ _ rfl (by decide)

end A2A
